import Mathlib

/-!
# MQTT Client API of the RTI Routing Service MQTT adapter

A shallow embedding of `plugins/adapters/mqtt/include/rti/rtiadapt_mqtt_client.h`.

The header contains the preprocessor definitions (default initializers, the
unlimited-read constant, the mutex helper blocks) and the declarations of the
client functions. The preprocessor definitions are embedded from their text.
The bodies of the declared functions are not part of the header: they are
modelled from the specification, and every such definition says so in its
documentation.
-/

namespace RtiMqtt

/-! ## External DDS types used by the header -/

/-- Modelled from the spec: the return codes of the DDS API, `DDS_ReturnCode_t`,
a type the header uses and does not declare. Every operation reports success
as `DDS_RETCODE_OK` and failure as another code. -/
inductive DDS_ReturnCode_t where
  | DDS_RETCODE_OK
  | DDS_RETCODE_ERROR
  | DDS_RETCODE_UNSUPPORTED
  | DDS_RETCODE_BAD_PARAMETER
  | DDS_RETCODE_PRECONDITION_NOT_MET
  | DDS_RETCODE_OUT_OF_RESOURCES
  | DDS_RETCODE_NOT_ENABLED
  | DDS_RETCODE_IMMUTABLE_POLICY
  | DDS_RETCODE_INCONSISTENT_POLICY
  | DDS_RETCODE_ALREADY_DELETED
  | DDS_RETCODE_TIMEOUT
  | DDS_RETCODE_NO_DATA
  | DDS_RETCODE_ILLEGAL_OPERATION
  deriving DecidableEq, Repr

open DDS_ReturnCode_t

/-- Modelled from the spec: one byte of an MQTT payload, `DDS_Octet`, a type
the header does not declare. -/
abbrev DDS_Octet := Fin 256

/-- Modelled from the spec: `DDS_SEQUENCE_INITIALIZER`, which the header uses
and does not define: the sequence with no element. -/
def DDS_SEQUENCE_INITIALIZER {α : Type} : List α := []

/-! ## Types generated from IDL, used by the header's initializers -/

/-- Modelled from the spec: `RTI_MQTT_Time`, a type the header uses and does
not declare: seconds and nanoseconds. -/
structure RTI_MQTT_Time where
  seconds : Int
  nanoseconds : Nat
  deriving DecidableEq, Repr

/-- The block `RTI_MQTT_Time_INITIALIZER(sec_,nsec_)`, which is
`{ (sec_), (nsec_) }`. -/
def RTI_MQTT_Time_INITIALIZER (sec_ : Int) (nsec_ : Nat) : RTI_MQTT_Time :=
  ⟨sec_, nsec_⟩

/-- Modelled from the spec: the MQTT protocol versions,
`RTI_MQTT_MqttProtocolVersion`, a type the header uses and does not declare. -/
inductive RTI_MQTT_MqttProtocolVersion where
  | MQTT_DEFAULT
  | MQTT_3_1
  | MQTT_3_1_1
  deriving DecidableEq, Repr

/-- Modelled from the spec: the persistence levels,
`RTI_MQTT_PersistenceLevel`, a type the header uses and does not declare. -/
inductive RTI_MQTT_PersistenceLevel where
  | NONE
  | DURABLE
  deriving DecidableEq, Repr

/-- Modelled from the spec: the MQTT quality of service levels,
`RTI_MQTT_QosLevel`, a type the header uses and does not declare. -/
inductive RTI_MQTT_QosLevel where
  | ZERO
  | ONE
  | TWO
  deriving DecidableEq, Repr

/-- Modelled from the spec: the TLS settings of a client, a type the header
does not declare and whose contents it does not use. -/
structure RTI_MQTT_SslTlsConfig where
  ca : String
  identity : String
  deriving DecidableEq, Repr

/-- Modelled from the spec: the client configuration `RTI_MQTT_ClientConfig`,
a type the header uses and does not declare. The fields are those the
initializer names, in its order; the last four are pointers, absent when
`NULL`. -/
structure RTI_MQTT_ClientConfig where
  id : String
  protocol_version : RTI_MQTT_MqttProtocolVersion
  server_uris : List String
  connect_timeout : RTI_MQTT_Time
  max_connection_retries : Nat
  keep_alive_period : RTI_MQTT_Time
  clean_session : Bool
  unsubscribe_on_disconnect : Bool
  max_reply_timeout : RTI_MQTT_Time
  reconnect : Bool
  max_unack_messages : Nat
  persistence_level : RTI_MQTT_PersistenceLevel
  persistence_storage : Option String
  username : Option String
  password : Option String
  ssl_tls_config : Option RTI_MQTT_SslTlsConfig
  deriving DecidableEq, Repr

/-- The block `RTI_MQTT_ClientConfig_INITIALIZER`, value by value. -/
def RTI_MQTT_ClientConfig_INITIALIZER : RTI_MQTT_ClientConfig :=
  ⟨"",                                         -- id
   RTI_MQTT_MqttProtocolVersion.MQTT_DEFAULT,  -- protocol_version
   DDS_SEQUENCE_INITIALIZER,                   -- server_uris
   RTI_MQTT_Time_INITIALIZER 10 0,             -- connect_timeout
   10,                                         -- max_connection_retries
   RTI_MQTT_Time_INITIALIZER 10 0,             -- keep_alive_period
   false,                                      -- clean_session
   true,                                       -- unsubscribe_on_disconnect
   RTI_MQTT_Time_INITIALIZER 3 0,              -- max_reply_timeout
   true,                                       -- reconnect
   10,                                         -- max_unack_messages
   RTI_MQTT_PersistenceLevel.NONE,             -- persistence_level
   none,                                       -- persistence_storage
   none,                                       -- username
   none,                                       -- password
   none⟩                                       -- ssl_tls_config

/-- Modelled from the spec: the subscription configuration
`RTI_MQTT_SubscriptionConfig`, a type the header uses and does not declare,
with the fields its initializer names. -/
structure RTI_MQTT_SubscriptionConfig where
  topic_filters : List String
  max_qos : RTI_MQTT_QosLevel
  message_queue_size : Nat
  deriving DecidableEq, Repr

/-- The block `RTI_MQTT_SubscriptionConfig_INITIALIZER`. -/
def RTI_MQTT_SubscriptionConfig_INITIALIZER : RTI_MQTT_SubscriptionConfig :=
  ⟨DDS_SEQUENCE_INITIALIZER,   -- topic_filters
   RTI_MQTT_QosLevel.TWO,      -- max_qos
   0⟩                          -- message_queue_size

/-- Modelled from the spec: the publication configuration
`RTI_MQTT_PublicationConfig`, a type the header uses and does not declare,
with the fields its initializer names. -/
structure RTI_MQTT_PublicationConfig where
  topic : String
  qos : RTI_MQTT_QosLevel
  retained : Bool
  use_message_info : Bool
  max_wait_time : RTI_MQTT_Time
  deriving DecidableEq, Repr

/-- The block `RTI_MQTT_PublicationConfig_INITIALIZER`. -/
def RTI_MQTT_PublicationConfig_INITIALIZER : RTI_MQTT_PublicationConfig :=
  ⟨"",                               -- topic
   RTI_MQTT_QosLevel.ZERO,           -- qos
   false,                            -- retained
   false,                            -- use_message_info
   RTI_MQTT_Time_INITIALIZER 10 0⟩   -- max_wait_time

/-- Modelled from the spec: the parameters of the raw write path,
`RTI_MQTT_WriteParams`, a type the header uses and does not declare, with the
fields its initializer names. -/
structure RTI_MQTT_WriteParams where
  qos_level : RTI_MQTT_QosLevel
  retained : Bool
  deriving DecidableEq, Repr

/-- The block `RTI_MQTT_WriteParams_INITIALIZER`. -/
def RTI_MQTT_WriteParams_INITIALIZER : RTI_MQTT_WriteParams :=
  ⟨RTI_MQTT_QosLevel.ZERO,   -- qos_level
   false⟩                    -- retained

/-- The constant `RTI_MQTT_SUBSCRIPTION_READ_LENGTH_UNLIMITED`. -/
def RTI_MQTT_SUBSCRIPTION_READ_LENGTH_UNLIMITED : Nat := 0

/-- The two kinds of read the header documents for
`RTI_MQTT_Subscription_read`. -/
inductive RTI_MQTT_ReadKind where
  | unlimited
  | bounded
  deriving DecidableEq, Repr

/-- The kind of read a value of `max_messages` asks for, as the header
documents it: all available messages, on a loaned buffer, when
`RTI_MQTT_SUBSCRIPTION_READ_LENGTH_UNLIMITED` is used, and at most
`max_messages` messages otherwise. -/
def RTI_MQTT_Subscription_read_kind (max_messages : Nat) : RTI_MQTT_ReadKind :=
  if max_messages = RTI_MQTT_SUBSCRIPTION_READ_LENGTH_UNLIMITED then
    RTI_MQTT_ReadKind.unlimited
  else
    RTI_MQTT_ReadKind.bounded

/-! ## Messages and structured samples -/

/-- Modelled from the spec: the optional metadata of a message, its `info`
field. -/
structure RTI_MQTT_MessageInfo where
  timestamp : RTI_MQTT_Time
  content_type : String
  deriving DecidableEq, Repr

/-- Modelled from the spec: the raw MQTT message `RTI_MQTT_Message`, which the
header only forward-declares. It carries payload bytes, topic, QoS, retained
flag and optional metadata. -/
structure RTI_MQTT_Message where
  topic : String
  payload : List DDS_Octet
  qos : RTI_MQTT_QosLevel
  retained : Bool
  info : Option RTI_MQTT_MessageInfo
  deriving DecidableEq, Repr

/-- Modelled from the spec: a value held by one member of a structured
sample. -/
inductive DDS_MemberValue where
  | string (s : String)
  | octets (b : List DDS_Octet)
  | long (n : Int)
  | boolean (b : Bool)
  | info (i : RTI_MQTT_MessageInfo)
  deriving DecidableEq, Repr

/-- Modelled from the spec: the generic structured sample `DDS_DynamicData`,
an external type the header uses and does not declare. A sample is a
collection of named members, each set or unset. -/
abbrev DDS_DynamicData := List (String × DDS_MemberValue)

/-- Unset the member `name` of a sample. -/
def DDS_DynamicData_unset (d : DDS_DynamicData) (name : String) : DDS_DynamicData :=
  d.filter (fun p => p.1 != name)

/-- Set the member `name` of a sample to `v`, replacing any previous value. -/
def DDS_DynamicData_set (d : DDS_DynamicData) (name : String) (v : DDS_MemberValue) :
    DDS_DynamicData :=
  (name, v) :: DDS_DynamicData_unset d name

/-- Read the member `name` of a sample, `none` when it is unset. -/
def DDS_DynamicData_get (d : DDS_DynamicData) (name : String) : Option DDS_MemberValue :=
  (d.find? (fun p => p.1 == name)).map Prod.snd

/-- The integer that represents a QoS level in a sample. -/
def RTI_MQTT_QosLevel_to_long : RTI_MQTT_QosLevel → Int
  | RTI_MQTT_QosLevel.ZERO => 0
  | RTI_MQTT_QosLevel.ONE => 1
  | RTI_MQTT_QosLevel.TWO => 2

/-- The QoS level an integer of a sample stands for, if any. -/
def RTI_MQTT_QosLevel_from_long (n : Int) : Option RTI_MQTT_QosLevel :=
  if n = 0 then some RTI_MQTT_QosLevel.ZERO
  else if n = 1 then some RTI_MQTT_QosLevel.ONE
  else if n = 2 then some RTI_MQTT_QosLevel.TWO
  else none

/-- Modelled from the spec: `RTI_MQTT_Message_to_dynamic_data`, declared in the
header without a body. It sets the members of `sample` from the message:
topic, payload, QoS and retained flag always, the metadata when the message
has it (the member is left unset otherwise). -/
def RTI_MQTT_Message_to_dynamic_data (self : RTI_MQTT_Message) (sample : DDS_DynamicData) :
    DDS_ReturnCode_t × DDS_DynamicData :=
  let s1 := DDS_DynamicData_set sample "topic" (DDS_MemberValue.string self.topic)
  let s2 := DDS_DynamicData_set s1 "payload" (DDS_MemberValue.octets self.payload)
  let s3 := DDS_DynamicData_set s2 "qos"
    (DDS_MemberValue.long (RTI_MQTT_QosLevel_to_long self.qos))
  let s4 := DDS_DynamicData_set s3 "retained" (DDS_MemberValue.boolean self.retained)
  match self.info with
  | some i => (DDS_RETCODE_OK, DDS_DynamicData_set s4 "info" (DDS_MemberValue.info i))
  | none => (DDS_RETCODE_OK, DDS_DynamicData_unset s4 "info")

/-- The optional metadata member of a sample. -/
def DDS_DynamicData_get_info (sample : DDS_DynamicData) : Option RTI_MQTT_MessageInfo :=
  match DDS_DynamicData_get sample "info" with
  | some (DDS_MemberValue.info i) => some i
  | _ => none

/-- Modelled from the spec: `RTI_MQTT_Message_from_dynamic_data`, declared in
the header without a body. It sets the message from the members of `sample`
and fails, leaving the message as it was, when one of topic, payload, QoS or
retained flag is unset or holds a value of another kind. -/
def RTI_MQTT_Message_from_dynamic_data (self : RTI_MQTT_Message) (sample : DDS_DynamicData) :
    DDS_ReturnCode_t × RTI_MQTT_Message :=
  match DDS_DynamicData_get sample "topic", DDS_DynamicData_get sample "payload",
      DDS_DynamicData_get sample "qos", DDS_DynamicData_get sample "retained" with
  | some (DDS_MemberValue.string t), some (DDS_MemberValue.octets p),
      some (DDS_MemberValue.long q), some (DDS_MemberValue.boolean r) =>
    match RTI_MQTT_QosLevel_from_long q with
    | some level =>
      (DDS_RETCODE_OK,
        { topic := t, payload := p, qos := level, retained := r,
          info := DDS_DynamicData_get_info sample })
    | none => (DDS_RETCODE_ERROR, self)
  | _, _, _, _ => (DDS_RETCODE_ERROR, self)

/-! ## Transport -/

/-- Modelled from the spec: a request the client hands to the external MQTT
transport library. -/
inductive TransportRequest where
  | connect (uri : String)
  | disconnect
  | subscribe (filters : List String) (qos : RTI_MQTT_QosLevel)
  | unsubscribe (filters : List String)
  | publish (topic : String) (payload : List DDS_Octet) (qos : RTI_MQTT_QosLevel)
      (retained : Bool)
  deriving DecidableEq, Repr

/-- Modelled from the spec: the external MQTT transport library and the
broker behind it, seen from the client: what each request meets. `connect uri k` tells whether the attempt
number `k` to reach `uri` succeeds within the connect timeout, `subscribe`
gives the QoS the broker grants (`none`: rejected or no reply in time), the
others tell whether the request is acknowledged in time. -/
structure Transport where
  connect : String → Nat → Bool
  disconnect : Bool
  subscribe : List String → RTI_MQTT_QosLevel → Option RTI_MQTT_QosLevel
  unsubscribe : List String → Bool
  publish : String → List DDS_Octet → RTI_MQTT_QosLevel → Bool → Bool

/-! ## Subscriptions -/

/-- Modelled from the spec: a registered data-available listener, the callback
(`RTI_MQTT_Subscription_DataAvailableCallback`) and its state object, both
opaque addresses. -/
structure RTI_MQTT_Subscription_Listener where
  callback : Nat
  listener_data : Nat
  deriving DecidableEq, Repr

/-- Modelled from the spec: `struct RTI_MQTT_Subscription`, which the header
only forward-declares: the owning client, the topic filters, the QoS the
broker granted, the queue of received messages with its capacity (0 for
unbounded), the count of messages dropped on overflow, the listener, the
outstanding-loan flag and the buffer on loan. -/
structure RTI_MQTT_Subscription where
  client : String
  topic_filters : List String
  qos : RTI_MQTT_QosLevel
  message_queue_size : Nat
  queue : List RTI_MQTT_Message
  dropped : Nat
  listener : Option RTI_MQTT_Subscription_Listener
  loan_outstanding : Bool
  loaned : List DDS_DynamicData
  deriving DecidableEq, Repr

/-- The sample a queued message is read as. -/
def RTI_MQTT_Subscription_sample (m : RTI_MQTT_Message) : DDS_DynamicData :=
  (RTI_MQTT_Message_to_dynamic_data m []).2

/-- Modelled from the spec: `RTI_MQTT_Subscription_set_data_available_listener`,
declared in the header without a body. It replaces any existing listener. -/
def RTI_MQTT_Subscription_set_data_available_listener (self : RTI_MQTT_Subscription)
    (listener : Nat) (listener_data : Nat) : DDS_ReturnCode_t × RTI_MQTT_Subscription :=
  (DDS_RETCODE_OK, { self with listener := some ⟨listener, listener_data⟩ })

/-- Modelled from the spec: `RTI_MQTT_Subscription_read`, declared in the header
without a body. With the unlimited constant it fails while a loan is
outstanding, and otherwise loans the whole queue to the caller and sets the
outstanding-loan flag. With a bounded count it copies up to `max_messages`
messages out of the queue and leaves the loan flag alone. The result is the
return code, the subscription afterwards and the messages read. -/
def RTI_MQTT_Subscription_read (self : RTI_MQTT_Subscription) (max_messages : Nat) :
    DDS_ReturnCode_t × RTI_MQTT_Subscription × List DDS_DynamicData :=
  match RTI_MQTT_Subscription_read_kind max_messages with
  | RTI_MQTT_ReadKind.unlimited =>
    if self.loan_outstanding then
      (DDS_RETCODE_ERROR, self, [])
    else
      (DDS_RETCODE_OK,
        { self with
          queue := [],
          loan_outstanding := true,
          loaned := self.queue.map RTI_MQTT_Subscription_sample },
        self.queue.map RTI_MQTT_Subscription_sample)
  | RTI_MQTT_ReadKind.bounded =>
    (DDS_RETCODE_OK,
      { self with queue := self.queue.drop max_messages },
      (self.queue.take max_messages).map RTI_MQTT_Subscription_sample)

/-- Modelled from the spec: `RTI_MQTT_Subscription_return_loan`, declared in the
header without a body. It fails if no loan is outstanding or `messages` is not
the loaned buffer, and otherwise clears the flag and reclaims the buffer. -/
def RTI_MQTT_Subscription_return_loan (self : RTI_MQTT_Subscription)
    (messages : List DDS_DynamicData) : DDS_ReturnCode_t × RTI_MQTT_Subscription :=
  if self.loan_outstanding = true ∧ messages = self.loaned then
    (DDS_RETCODE_OK, { self with loan_outstanding := false, loaned := [] })
  else
    (DDS_RETCODE_ERROR, self)

/-- Modelled from the spec: the delivery path, driven by the transport, which
has no declaration in the header. The message is appended to the queue; if a
bounded queue is at capacity the oldest message is dropped and the drop is
counted. The second component is the listener to notify, if any. -/
def RTI_MQTT_Subscription_deliver (self : RTI_MQTT_Subscription) (m : RTI_MQTT_Message) :
    RTI_MQTT_Subscription × Option RTI_MQTT_Subscription_Listener :=
  if self.message_queue_size ≠ 0 ∧ self.message_queue_size ≤ self.queue.length then
    ({ self with queue := self.queue.tail ++ [m], dropped := self.dropped + 1 },
      self.listener)
  else
    ({ self with queue := self.queue ++ [m] }, self.listener)

/-- One step of the life of a subscription between its creation and its
deletion. -/
inductive SubscriptionOp where
  | set_listener (listener : Nat) (listener_data : Nat)
  | read (max_messages : Nat)
  | return_loan (messages : List DDS_DynamicData)
  | deliver (m : RTI_MQTT_Message)
  deriving DecidableEq, Repr

/-- The return code and the subscription after one step (a delivery has no
return code of its own: it counts as successful). -/
def SubscriptionOp.step (self : RTI_MQTT_Subscription) :
    SubscriptionOp → DDS_ReturnCode_t × RTI_MQTT_Subscription
  | SubscriptionOp.set_listener l d =>
    RTI_MQTT_Subscription_set_data_available_listener self l d
  | SubscriptionOp.read n =>
    ((RTI_MQTT_Subscription_read self n).1, (RTI_MQTT_Subscription_read self n).2.1)
  | SubscriptionOp.return_loan ms => RTI_MQTT_Subscription_return_loan self ms
  | SubscriptionOp.deliver m => (DDS_RETCODE_OK, (RTI_MQTT_Subscription_deliver self m).1)

/-- The subscription after a sequence of steps. -/
def SubscriptionOp.run (self : RTI_MQTT_Subscription) :
    List SubscriptionOp → RTI_MQTT_Subscription
  | [] => self
  | op :: ops => SubscriptionOp.run (SubscriptionOp.step self op).2 ops

/-- Whether a step is a call of `RTI_MQTT_Subscription_return_loan`. -/
def SubscriptionOp.is_return_loan : SubscriptionOp → Bool
  | SubscriptionOp.return_loan _ => true
  | _ => false

/-- The change in the number of loans handed out and not yet returned that a
step with return code `rc` makes: a successful unlimited read hands out one
loan, a successful return takes one back. -/
def SubscriptionOp.loan_delta (rc : DDS_ReturnCode_t) : SubscriptionOp → Int
  | SubscriptionOp.read n =>
    if rc = DDS_RETCODE_OK ∧ RTI_MQTT_Subscription_read_kind n = RTI_MQTT_ReadKind.unlimited
    then 1 else 0
  | SubscriptionOp.return_loan _ => if rc = DDS_RETCODE_OK then -1 else 0
  | _ => 0

/-- The number of loans handed out and not yet returned after a sequence of
steps, counted from the return codes, starting with `held` loans. -/
def SubscriptionOp.loans_outstanding (self : RTI_MQTT_Subscription) (held : Int) :
    List SubscriptionOp → Int
  | [] => held
  | op :: ops =>
    SubscriptionOp.loans_outstanding (SubscriptionOp.step self op).2
      (held + SubscriptionOp.loan_delta (SubscriptionOp.step self op).1 op) ops

/-! ## Publications -/

/-- Modelled from the spec: `struct RTI_MQTT_Publication`, which the header
only forward-declares: the owning client and the resolved configuration. -/
structure RTI_MQTT_Publication where
  client : String
  config : RTI_MQTT_PublicationConfig
  deriving DecidableEq, Repr

/-- The publish settings of a write: topic, QoS and retained flag. -/
structure PublishSettings where
  topic : String
  qos : RTI_MQTT_QosLevel
  retained : Bool
  deriving DecidableEq, Repr

/-- The publish settings a sample carries itself: they exist when its `info`
member is set and its topic, QoS and retained members are well-formed. -/
def RTI_MQTT_Publication_message_settings (message : DDS_DynamicData) :
    Option PublishSettings :=
  match DDS_DynamicData_get_info message with
  | none => none
  | some _ =>
    match DDS_DynamicData_get message "topic", DDS_DynamicData_get message "qos",
        DDS_DynamicData_get message "retained" with
    | some (DDS_MemberValue.string t), some (DDS_MemberValue.long q),
        some (DDS_MemberValue.boolean r) =>
      (RTI_MQTT_QosLevel_from_long q).map (fun level => ⟨t, level, r⟩)
    | _, _, _ => none

/-- The publish settings `RTI_MQTT_Publication_write` uses for a sample: those
of the publication's configuration, or, if `use_message_info` is enabled, those
the sample carries. -/
def RTI_MQTT_Publication_settings (self : RTI_MQTT_Publication) (message : DDS_DynamicData) :
    Option PublishSettings :=
  if self.config.use_message_info then
    RTI_MQTT_Publication_message_settings message
  else
    some ⟨self.config.topic, self.config.qos, self.config.retained⟩

/-- Modelled from the spec: `RTI_MQTT_Publication_write`, declared in the header
without a body. The payload of the sample is published with the settings of
the publication's configuration, or with those of the sample if
`use_message_info` is enabled; the call fails without publishing when the
settings or the payload cannot be determined, and fails when the transport does
not acknowledge the message in time. The result is the return code and the
requests handed to the transport. -/
def RTI_MQTT_Publication_write (T : Transport) (self : RTI_MQTT_Publication)
    (message : DDS_DynamicData) : DDS_ReturnCode_t × List TransportRequest :=
  match RTI_MQTT_Publication_settings self message, DDS_DynamicData_get message "payload" with
  | some settings, some (DDS_MemberValue.octets payload) =>
    (if T.publish settings.topic payload settings.qos settings.retained then DDS_RETCODE_OK
      else DDS_RETCODE_ERROR,
      [TransportRequest.publish settings.topic payload settings.qos settings.retained])
  | _, _ => (DDS_RETCODE_ERROR, [])

/-- Modelled from the spec: `RTI_MQTT_Publication_write_w_params`, declared in
the header without a body. It publishes `buffer` to `topic` with `params`,
whatever the configuration of the publication. -/
def RTI_MQTT_Publication_write_w_params (T : Transport) (_self : RTI_MQTT_Publication)
    (buffer : List DDS_Octet) (topic : String) (params : RTI_MQTT_WriteParams) :
    DDS_ReturnCode_t × List TransportRequest :=
  (if T.publish topic buffer params.qos_level params.retained then DDS_RETCODE_OK
    else DDS_RETCODE_ERROR,
    [TransportRequest.publish topic buffer params.qos_level params.retained])

/-! ## Client -/

/-- Modelled from the spec: the connection states of a client. -/
inductive RTI_MQTT_ClientStateKind where
  | DISCONNECTED
  | CONNECTING
  | CONNECTED
  deriving DecidableEq, Repr

/-- Modelled from the spec: `struct RTI_MQTT_Client`, which the header only
forward-declares: identifier, private copy of the configuration, connection
state, the transport session (the requests issued on it so far), whether
keep-alive monitoring is armed, and the owned subscriptions and publications.
Operations on one client are serialized by its mutex, so each is modelled as
one atomic step. -/
structure RTI_MQTT_Client where
  id : String
  config : RTI_MQTT_ClientConfig
  state : RTI_MQTT_ClientStateKind
  session : List TransportRequest
  keep_alive_armed : Bool
  subscriptions : List RTI_MQTT_Subscription
  publications : List RTI_MQTT_Publication
  deriving DecidableEq, Repr

/-- Modelled from the spec: `RTI_MQTT_Client_new`, declared in the header
without a body. It allocates a client in `DISCONNECTED` state and contacts no
broker; a malformed configuration is refused at construction. The spec names
this check and does not define it: `valid` stands for it. The second
component is `client_out`, `none` for `NULL`. -/
def RTI_MQTT_Client_new (valid : RTI_MQTT_ClientConfig → Bool) (config : RTI_MQTT_ClientConfig) :
    DDS_ReturnCode_t × Option RTI_MQTT_Client :=
  if valid config then
    (DDS_RETCODE_OK,
      some
        { id := config.id,
          config := config,
          state := RTI_MQTT_ClientStateKind.DISCONNECTED,
          session := [],
          keep_alive_armed := false,
          subscriptions := [],
          publications := [] })
  else
    (DDS_RETCODE_ERROR, none)

/-- Modelled from the spec: `RTI_MQTT_Client_get_id`, a pure accessor. -/
def RTI_MQTT_Client_get_id (self : RTI_MQTT_Client) : String :=
  self.id

/-- The connection attempts of `RTI_MQTT_Client_connect`: up to `remaining`
attempts on `uri`, numbered from `attempt`, until one succeeds. The result
tells whether one did, with the requests issued. -/
def RTI_MQTT_Client_connect_attempts (T : Transport) (uri : String) :
    (remaining : Nat) → (attempt : Nat) → Bool × List TransportRequest
  | 0, _ => (false, [])
  | remaining + 1, attempt =>
    if T.connect uri attempt then
      (true, [TransportRequest.connect uri])
    else
      ((RTI_MQTT_Client_connect_attempts T uri remaining (attempt + 1)).1,
        TransportRequest.connect uri ::
          (RTI_MQTT_Client_connect_attempts T uri remaining (attempt + 1)).2)

/-- Modelled from the spec: `RTI_MQTT_Client_disconnect`, declared in the header
without a body. It does nothing and succeeds if the client is not `CONNECTED`.
Otherwise, if `unsubscribe_on_disconnect` is set, it unsubscribes the filters
of every live subscription on the broker (best effort), then sends the
disconnection request, and the client becomes `DISCONNECTED`. -/
def RTI_MQTT_Client_disconnect (T : Transport) (self : RTI_MQTT_Client) :
    DDS_ReturnCode_t × RTI_MQTT_Client :=
  if self.state ≠ RTI_MQTT_ClientStateKind.CONNECTED then
    (DDS_RETCODE_OK, self)
  else
    let unsubscriptions :=
      if self.config.unsubscribe_on_disconnect then
        self.subscriptions.map (fun sub => TransportRequest.unsubscribe sub.topic_filters)
      else
        []
    (if T.disconnect then DDS_RETCODE_OK else DDS_RETCODE_ERROR,
      { self with
        state := RTI_MQTT_ClientStateKind.DISCONNECTED,
        session := self.session ++ unsubscriptions ++ [TransportRequest.disconnect],
        keep_alive_armed := false })

/-- Modelled from the spec: `RTI_MQTT_Client_subscribe`, declared in the header
without a body. It fails if the client is not `CONNECTED`. Otherwise it asks
the broker to subscribe the filters of `config` at `max_qos`; when the broker
grants a QoS the new subscription records it and is registered, and when it
does not the call fails and the registry is as before. The third component is
`sub_out`. -/
def RTI_MQTT_Client_subscribe (T : Transport) (self : RTI_MQTT_Client)
    (config : RTI_MQTT_SubscriptionConfig) :
    DDS_ReturnCode_t × RTI_MQTT_Client × Option RTI_MQTT_Subscription :=
  if self.state ≠ RTI_MQTT_ClientStateKind.CONNECTED then
    (DDS_RETCODE_ERROR, self, none)
  else
    let request := TransportRequest.subscribe config.topic_filters config.max_qos
    match T.subscribe config.topic_filters config.max_qos with
    | none => (DDS_RETCODE_ERROR, { self with session := self.session ++ [request] }, none)
    | some granted =>
      let sub : RTI_MQTT_Subscription :=
        { client := self.id,
          topic_filters := config.topic_filters,
          qos := granted,
          message_queue_size := config.message_queue_size,
          queue := [],
          dropped := 0,
          listener := none,
          loan_outstanding := false,
          loaned := [] }
      (DDS_RETCODE_OK,
        { self with
          session := self.session ++ [request],
          subscriptions := self.subscriptions ++ [sub] },
        some sub)

/-- Modelled from the spec: `RTI_MQTT_Client_unsubscribe`, declared in the
header without a body. It fails if the client is not `CONNECTED` or does not
own `sub`. Otherwise it asks the broker to unsubscribe the filters of `sub`
and, once acknowledged, removes `sub` from the registry. -/
def RTI_MQTT_Client_unsubscribe (T : Transport) (self : RTI_MQTT_Client)
    (sub : RTI_MQTT_Subscription) : DDS_ReturnCode_t × RTI_MQTT_Client :=
  if self.state ≠ RTI_MQTT_ClientStateKind.CONNECTED then
    (DDS_RETCODE_ERROR, self)
  else if sub ∉ self.subscriptions then
    (DDS_RETCODE_ERROR, self)
  else
    let request := TransportRequest.unsubscribe sub.topic_filters
    if T.unsubscribe sub.topic_filters then
      (DDS_RETCODE_OK,
        { self with
          session := self.session ++ [request],
          subscriptions := self.subscriptions.erase sub })
    else
      (DDS_RETCODE_ERROR, { self with session := self.session ++ [request] })

/-- Modelled from the spec: `RTI_MQTT_Client_publish`, declared in the header
without a body. A local operation, which fails all the same if the client is
not `CONNECTED`. The third component is `pub_out`. -/
def RTI_MQTT_Client_publish (self : RTI_MQTT_Client) (config : RTI_MQTT_PublicationConfig) :
    DDS_ReturnCode_t × RTI_MQTT_Client × Option RTI_MQTT_Publication :=
  if self.state ≠ RTI_MQTT_ClientStateKind.CONNECTED then
    (DDS_RETCODE_ERROR, self, none)
  else
    (DDS_RETCODE_OK,
      { self with publications := self.publications ++ [⟨self.id, config⟩] },
      some ⟨self.id, config⟩)

/-- Modelled from the spec: `RTI_MQTT_Client_unpublish`, declared in the header
without a body. A local operation, which fails if the client is not
`CONNECTED` or does not own `pub`. -/
def RTI_MQTT_Client_unpublish (self : RTI_MQTT_Client) (pub : RTI_MQTT_Publication) :
    DDS_ReturnCode_t × RTI_MQTT_Client :=
  if self.state ≠ RTI_MQTT_ClientStateKind.CONNECTED then
    (DDS_RETCODE_ERROR, self)
  else if pub ∉ self.publications then
    (DDS_RETCODE_ERROR, self)
  else
    (DDS_RETCODE_OK, { self with publications := self.publications.erase pub })

/-! ## Mutex helper blocks -/

/-- How a statement block ends: the process was aborted by `abort()`, or
control fell through the block with the program state `s`. -/
inductive Exec (σ : Type) where
  | aborted
  | fellThrough (s : σ)
  deriving DecidableEq, Repr

/-- The block `RTI_MQTT_Mutex_assert(m_)`. `take` is `RTI_MQTT_Mutex_take`,
which the header declares only: it returns a code and the next program
state. The trace and error logging lines have no effect on control. -/
def RTI_MQTT_Mutex_assert {M : Type} (take : M → DDS_ReturnCode_t × M) (m_ : M) :
    Exec M :=
  if DDS_RETCODE_OK ≠ (take m_).1 then
    Exec.aborted
  else
    Exec.fellThrough (take m_).2

/-- The block `RTI_MQTT_Mutex_release(m_)`. `give` is `RTI_MQTT_Mutex_give`,
which the header declares only. -/
def RTI_MQTT_Mutex_release {M : Type} (give : M → DDS_ReturnCode_t × M) (m_ : M) :
    Exec M :=
  if DDS_RETCODE_OK ≠ (give m_).1 then
    Exec.aborted
  else
    Exec.fellThrough (give m_).2

/-- The block `RTI_MQTT_Mutex_assert_w_state(m_,l_)`: the block
`RTI_MQTT_Mutex_assert(m_)`, then `*(l_) = DDS_BOOLEAN_TRUE`. The program state
is the mutex with the state variable; the value the variable held before is
only traced. -/
def RTI_MQTT_Mutex_assert_w_state {M : Type} (take : M → DDS_ReturnCode_t × M) (m_ : M)
    (_l_ : Bool) : Exec (M × Bool) :=
  match RTI_MQTT_Mutex_assert take m_ with
  | Exec.aborted => Exec.aborted
  | Exec.fellThrough m => Exec.fellThrough (m, true)

/-- The block `RTI_MQTT_Mutex_release_w_state(m_,l_)`:
`*(l_) = DDS_BOOLEAN_FALSE`, then the block `RTI_MQTT_Mutex_release(m_)`. -/
def RTI_MQTT_Mutex_release_w_state {M : Type} (give : M → DDS_ReturnCode_t × M) (m_ : M)
    (_l_ : Bool) : Exec (M × Bool) :=
  let l := false
  match RTI_MQTT_Mutex_release give m_ with
  | Exec.aborted => Exec.aborted
  | Exec.fellThrough m => Exec.fellThrough (m, l)

/-- The block `RTI_MQTT_Mutex_release_from_state(m_,l_)`: if `*(l_)` holds, the
block `RTI_MQTT_Mutex_release_w_state(m_,l_)`, and nothing otherwise. -/
def RTI_MQTT_Mutex_release_from_state {M : Type} (give : M → DDS_ReturnCode_t × M) (m_ : M)
    (l_ : Bool) : Exec (M × Bool) :=
  if l_ then
    RTI_MQTT_Mutex_release_w_state give m_ l_
  else
    Exec.fellThrough (m_, l_)

/-- One block after another: the second runs on the state the first left,
unless the first aborted. -/
def Exec.andThen {σ τ : Type} (first : Exec σ) (second : σ → Exec τ) : Exec τ :=
  match first with
  | Exec.aborted => Exec.aborted
  | Exec.fellThrough s => second s

/-- A mutex together with a record of the calls made on it: the number of
calls of `RTI_MQTT_Mutex_take`, of `RTI_MQTT_Mutex_give`, and of those calls of
`RTI_MQTT_Mutex_give` made while the mutex was not held (as many gives as
takes before the call). -/
structure ObservedMutex (M : Type) where
  mutex : M
  takes : Nat
  gives : Nat
  gives_not_held : Nat
  deriving DecidableEq, Repr

/-- The function `take`, with the call recorded. -/
def ObservedMutex.take {M : Type} (take : M → DDS_ReturnCode_t × M) (o : ObservedMutex M) :
    DDS_ReturnCode_t × ObservedMutex M :=
  ((take o.mutex).1, { o with mutex := (take o.mutex).2, takes := o.takes + 1 })

/-- The function `give`, with the call recorded. -/
def ObservedMutex.give {M : Type} (give : M → DDS_ReturnCode_t × M) (o : ObservedMutex M) :
    DDS_ReturnCode_t × ObservedMutex M :=
  ((give o.mutex).1,
    { o with
      mutex := (give o.mutex).2,
      gives := o.gives + 1,
      gives_not_held := if o.takes ≤ o.gives then o.gives_not_held + 1 else o.gives_not_held })

/-- A mutex on which no call has been made yet, so not held. -/
def ObservedMutex.fresh {M : Type} (m : M) : ObservedMutex M :=
  ⟨m, 0, 0, 0⟩

/-- The three blocks that keep the state of the mutex in a variable. -/
inductive MutexOp where
  | assert_w_state
  | release_w_state
  | release_from_state
  deriving DecidableEq, Repr

/-- When a block may be used: `RTI_MQTT_Mutex_assert_w_state` only with the
variable false, `RTI_MQTT_Mutex_release_w_state` only with the variable true,
`RTI_MQTT_Mutex_release_from_state` at any time. -/
def MutexOp.enabled (l_ : Bool) : MutexOp → Bool
  | MutexOp.assert_w_state => !l_
  | MutexOp.release_w_state => l_
  | MutexOp.release_from_state => true

/-- One block, run on an observed mutex and the state variable. -/
def MutexOp.step {M : Type} (take give : M → DDS_ReturnCode_t × M)
    (s : ObservedMutex M × Bool) : MutexOp → Exec (ObservedMutex M × Bool)
  | MutexOp.assert_w_state => RTI_MQTT_Mutex_assert_w_state (ObservedMutex.take take) s.1 s.2
  | MutexOp.release_w_state => RTI_MQTT_Mutex_release_w_state (ObservedMutex.give give) s.1 s.2
  | MutexOp.release_from_state =>
    RTI_MQTT_Mutex_release_from_state (ObservedMutex.give give) s.1 s.2

/-- A sequence of blocks, each used only when it may be: the state it ends
in, or `none` if a block is reached when it may not be used or the process
aborts. -/
def MutexOp.run {M : Type} (take give : M → DDS_ReturnCode_t × M)
    (s : ObservedMutex M × Bool) : List MutexOp → Option (ObservedMutex M × Bool)
  | [] => some s
  | op :: ops =>
    if op.enabled s.2 then
      match MutexOp.step take give s op with
      | Exec.aborted => none
      | Exec.fellThrough next => MutexOp.run take give next ops
    else
      none

/-! ## Derived quantities -/

/-- The length of a time in nanoseconds. -/
def RTI_MQTT_Time_to_nanoseconds (t : RTI_MQTT_Time) : Int :=
  t.seconds * 1000000000 + t.nanoseconds

/-- Modelled from the spec: the longest time `RTI_MQTT_Client_connect` may
block, `connect_timeout × (max_connection_retries + 1)`, in nanoseconds. -/
def RTI_MQTT_ClientConfig_max_connect_time (config : RTI_MQTT_ClientConfig) : Int :=
  RTI_MQTT_Time_to_nanoseconds config.connect_timeout * (config.max_connection_retries + 1)

/-- The subscription after the delivery of a sequence of messages, in their
order of arrival. -/
def RTI_MQTT_Subscription_deliver_all (self : RTI_MQTT_Subscription)
    (messages : List RTI_MQTT_Message) : RTI_MQTT_Subscription :=
  messages.foldl (fun sub m => (RTI_MQTT_Subscription_deliver sub m).1) self

/-! ## Concrete inputs -/

/-- A transport whose broker accepts every request and grants the requested
QoS. -/
def sample_transport : Transport :=
  ⟨fun _ _ => true, true, fun _ q => some q, fun _ => true, fun _ _ _ _ => true⟩

/-- A transport whose broker cannot be reached and acknowledges nothing. -/
def sample_transport_down : Transport :=
  ⟨fun _ _ => false, false, fun _ _ => none, fun _ => false, fun _ _ _ _ => false⟩

/-- The default client configuration with an identifier and one broker URI. -/
def sample_client_config : RTI_MQTT_ClientConfig :=
  { RTI_MQTT_ClientConfig_INITIALIZER with
    id := "client-1",
    server_uris := ["tcp://127.0.0.1:1883"] }

/-- The client `RTI_MQTT_Client_new` creates from `sample_client_config`. -/
def sample_client : RTI_MQTT_Client :=
  { id := "client-1",
    config := sample_client_config,
    state := RTI_MQTT_ClientStateKind.DISCONNECTED,
    session := [],
    keep_alive_armed := false,
    subscriptions := [],
    publications := [] }

/-- A message without metadata. -/
def sample_message : RTI_MQTT_Message :=
  { topic := "sensors/temp", payload := [1, 2, 3], qos := RTI_MQTT_QosLevel.ONE,
    retained := true, info := none }

/-- A subscription of `sample_client` with one filter and an unbounded queue
holding one message. -/
def sample_subscription : RTI_MQTT_Subscription :=
  { client := "client-1",
    topic_filters := ["sensors/#"],
    qos := RTI_MQTT_QosLevel.ONE,
    message_queue_size := 0,
    queue := [sample_message],
    dropped := 0,
    listener := none,
    loan_outstanding := false,
    loaned := [] }

/-- A publication of `sample_client` that takes its settings from the
messages. -/
def sample_publication_message_info : RTI_MQTT_Publication :=
  ⟨"client-1", { RTI_MQTT_PublicationConfig_INITIALIZER with use_message_info := true }⟩

/-- A publication of `sample_client` with settings of its own. -/
def sample_publication : RTI_MQTT_Publication :=
  ⟨"client-1",
    { RTI_MQTT_PublicationConfig_INITIALIZER with
      topic := "actuators/valve", qos := RTI_MQTT_QosLevel.TWO, retained := true }⟩

/-- A mutex without content whose take always succeeds. -/
def sample_take : Unit → DDS_ReturnCode_t × Unit :=
  fun _ => (DDS_RETCODE_OK, ())

/-- A mutex without content whose give always succeeds. -/
def sample_give : Unit → DDS_ReturnCode_t × Unit :=
  fun _ => (DDS_RETCODE_OK, ())

/-- A mutex without content whose give always fails. -/
def sample_give_failing : Unit → DDS_ReturnCode_t × Unit :=
  fun _ => (DDS_RETCODE_ERROR, ())

/-- The message A of the bounded-queue scenario. -/
def sample_message_A : RTI_MQTT_Message :=
  { topic := "t", payload := [65], qos := RTI_MQTT_QosLevel.ZERO, retained := false,
    info := none }

/-- The message B of the bounded-queue scenario. -/
def sample_message_B : RTI_MQTT_Message :=
  { topic := "t", payload := [66], qos := RTI_MQTT_QosLevel.ZERO, retained := false,
    info := none }

/-- The message C of the bounded-queue scenario. -/
def sample_message_C : RTI_MQTT_Message :=
  { topic := "t", payload := [67], qos := RTI_MQTT_QosLevel.ZERO, retained := false,
    info := none }

/-- A subscription with an empty queue of capacity 2. -/
def sample_subscription_bounded : RTI_MQTT_Subscription :=
  { client := "client-1",
    topic_filters := ["t"],
    qos := RTI_MQTT_QosLevel.ZERO,
    message_queue_size := 2,
    queue := [],
    dropped := 0,
    listener := none,
    loan_outstanding := false,
    loaned := [] }

/-! ## Properties -/

/-! ### Default values and constants -/

/-- C10: the default client configuration `RTI_MQTT_ClientConfig_INITIALIZER`
has an empty id, the default protocol version, no server URI, a connect
timeout of 10 s 0 ns, 10 connection retries, a keep-alive period of 10 s 0 ns,
clean session off, unsubscribe-on-disconnect on, a reply timeout of 3 s 0 ns,
reconnect on, 10 unacknowledged messages, persistence level NONE, and its four
optional fields absent. -/
theorem client_config_initializer_values :
    RTI_MQTT_ClientConfig_INITIALIZER.id = "" ∧
    RTI_MQTT_ClientConfig_INITIALIZER.protocol_version =
      RTI_MQTT_MqttProtocolVersion.MQTT_DEFAULT ∧
    RTI_MQTT_ClientConfig_INITIALIZER.server_uris = [] ∧
    RTI_MQTT_ClientConfig_INITIALIZER.connect_timeout = ⟨10, 0⟩ ∧
    RTI_MQTT_ClientConfig_INITIALIZER.max_connection_retries = 10 ∧
    RTI_MQTT_ClientConfig_INITIALIZER.keep_alive_period = ⟨10, 0⟩ ∧
    RTI_MQTT_ClientConfig_INITIALIZER.clean_session = false ∧
    RTI_MQTT_ClientConfig_INITIALIZER.unsubscribe_on_disconnect = true ∧
    RTI_MQTT_ClientConfig_INITIALIZER.max_reply_timeout = ⟨3, 0⟩ ∧
    RTI_MQTT_ClientConfig_INITIALIZER.reconnect = true ∧
    RTI_MQTT_ClientConfig_INITIALIZER.max_unack_messages = 10 ∧
    RTI_MQTT_ClientConfig_INITIALIZER.persistence_level = RTI_MQTT_PersistenceLevel.NONE ∧
    RTI_MQTT_ClientConfig_INITIALIZER.persistence_storage = none ∧
    RTI_MQTT_ClientConfig_INITIALIZER.username = none ∧
    RTI_MQTT_ClientConfig_INITIALIZER.password = none ∧
    RTI_MQTT_ClientConfig_INITIALIZER.ssl_tls_config = none := by
  refine ⟨rfl, rfl, rfl, rfl, rfl, rfl, rfl, rfl, rfl, rfl, rfl, rfl, rfl, rfl, rfl, rfl⟩

/-- C9: the constant `RTI_MQTT_SUBSCRIPTION_READ_LENGTH_UNLIMITED` is 0, so no
`max_messages` of 1 or more equals it: a read is unlimited exactly when
`max_messages` is 0, and bounded for every `max_messages` of 1 or more. -/
theorem read_length_unlimited_is_zero :
    RTI_MQTT_SUBSCRIPTION_READ_LENGTH_UNLIMITED = 0 ∧
    (∀ max_messages : Nat,
      1 ≤ max_messages → max_messages ≠ RTI_MQTT_SUBSCRIPTION_READ_LENGTH_UNLIMITED) ∧
    (∀ max_messages : Nat,
      RTI_MQTT_Subscription_read_kind max_messages = RTI_MQTT_ReadKind.unlimited ↔
        max_messages = 0) ∧
    (∀ max_messages : Nat,
      RTI_MQTT_Subscription_read_kind max_messages = RTI_MQTT_ReadKind.bounded ↔
        1 ≤ max_messages) := by
  refine ⟨rfl, ?_, ?_, ?_⟩
  · intro n hn
    unfold RTI_MQTT_SUBSCRIPTION_READ_LENGTH_UNLIMITED
    omega
  · intro n
    unfold RTI_MQTT_Subscription_read_kind RTI_MQTT_SUBSCRIPTION_READ_LENGTH_UNLIMITED
    by_cases h : n = 0 <;> simp [h]
  · intro n
    unfold RTI_MQTT_Subscription_read_kind RTI_MQTT_SUBSCRIPTION_READ_LENGTH_UNLIMITED
    by_cases h : n = 0
    · simp [h]
    · simp [h]
      omega

/-! ### Mutex helper blocks -/

/-- C7: the block `RTI_MQTT_Mutex_assert` aborts exactly when
`RTI_MQTT_Mutex_take` returns a code other than `DDS_RETCODE_OK`, and the block
`RTI_MQTT_Mutex_release` aborts exactly when `RTI_MQTT_Mutex_give` does; on
`DDS_RETCODE_OK`, and only then, control falls through with the state the call
left. A block ends in one of these two ways and yields no error value. -/
theorem mutex_assert_release_abort_iff {M : Type} (take give : M → DDS_ReturnCode_t × M)
    (m_ : M) :
    (RTI_MQTT_Mutex_assert take m_ = Exec.aborted ↔ (take m_).1 ≠ DDS_RETCODE_OK) ∧
    (RTI_MQTT_Mutex_release give m_ = Exec.aborted ↔ (give m_).1 ≠ DDS_RETCODE_OK) ∧
    (RTI_MQTT_Mutex_assert take m_ = Exec.fellThrough (take m_).2 ↔
      (take m_).1 = DDS_RETCODE_OK) ∧
    (RTI_MQTT_Mutex_release give m_ = Exec.fellThrough (give m_).2 ↔
      (give m_).1 = DDS_RETCODE_OK) ∧
    (RTI_MQTT_Mutex_assert take m_ = Exec.aborted ∨
      RTI_MQTT_Mutex_assert take m_ = Exec.fellThrough (take m_).2) ∧
    (RTI_MQTT_Mutex_release give m_ = Exec.aborted ∨
      RTI_MQTT_Mutex_release give m_ = Exec.fellThrough (give m_).2) := by
  unfold RTI_MQTT_Mutex_assert RTI_MQTT_Mutex_release
  refine ⟨?_, ?_, ?_, ?_, ?_, ?_⟩
  · by_cases h : (take m_).1 = DDS_RETCODE_OK
    · simp [h]
    · have h2 : DDS_RETCODE_OK ≠ (take m_).1 := fun e => h e.symm
      simp [h, h2]
  · by_cases h : (give m_).1 = DDS_RETCODE_OK
    · simp [h]
    · have h2 : DDS_RETCODE_OK ≠ (give m_).1 := fun e => h e.symm
      simp [h, h2]
  · by_cases h : (take m_).1 = DDS_RETCODE_OK
    · simp [h]
    · have h2 : DDS_RETCODE_OK ≠ (take m_).1 := fun e => h e.symm
      simp [h, h2]
  · by_cases h : (give m_).1 = DDS_RETCODE_OK
    · simp [h]
    · have h2 : DDS_RETCODE_OK ≠ (give m_).1 := fun e => h e.symm
      simp [h, h2]
  · by_cases h : (take m_).1 = DDS_RETCODE_OK
    · simp [h]
    · have h2 : DDS_RETCODE_OK ≠ (take m_).1 := fun e => h e.symm
      simp [h, h2]
  · by_cases h : (give m_).1 = DDS_RETCODE_OK
    · simp [h]
    · have h2 : DDS_RETCODE_OK ≠ (give m_).1 := fun e => h e.symm
      simp [h, h2]

/-! ### Connection state machine -/

/-- C3: for every configuration, if `RTI_MQTT_Client_new` succeeds then
`client_out` is a client in `DISCONNECTED` state (holding that configuration,
with no request issued to any broker), and if it fails `client_out` is
`NULL`. -/
theorem new_client_is_disconnected (valid : RTI_MQTT_ClientConfig → Bool)
    (config : RTI_MQTT_ClientConfig) :
    ((RTI_MQTT_Client_new valid config).1 = DDS_RETCODE_OK →
      ∃ client, (RTI_MQTT_Client_new valid config).2 = some client ∧
        client.state = RTI_MQTT_ClientStateKind.DISCONNECTED ∧
        client.config = config ∧ client.session = []) ∧
    ((RTI_MQTT_Client_new valid config).1 ≠ DDS_RETCODE_OK →
      (RTI_MQTT_Client_new valid config).2 = none) := by
  unfold RTI_MQTT_Client_new
  by_cases h : valid config = true
  · simp [h]
  · simp [h]

/-- C3, at concrete inputs: an accepted configuration gives `sample_client`,
in `DISCONNECTED` state, and a refused one gives `NULL`. -/
theorem new_client_is_disconnected_witness :
    (RTI_MQTT_Client_new (fun _ => true) sample_client_config).1 = DDS_RETCODE_OK ∧
    (RTI_MQTT_Client_new (fun _ => true) sample_client_config).2 = some sample_client ∧
    sample_client.state = RTI_MQTT_ClientStateKind.DISCONNECTED ∧
    (RTI_MQTT_Client_new (fun _ => false) sample_client_config).1 ≠ DDS_RETCODE_OK ∧
    (RTI_MQTT_Client_new (fun _ => false) sample_client_config).2 = none :=
  ⟨rfl, rfl, rfl, by decide,
    (new_client_is_disconnected (fun _ => false) sample_client_config).2 (by decide)⟩

/-- C4: on a client that is not `CONNECTED`, `RTI_MQTT_Client_disconnect`
returns `DDS_RETCODE_OK` and leaves the client as it was: same state, same
subscriptions, same publications, and no request issued to the broker. -/
theorem disconnect_noop_unless_connected (T : Transport) (self : RTI_MQTT_Client)
    (h : self.state ≠ RTI_MQTT_ClientStateKind.CONNECTED) :
    (RTI_MQTT_Client_disconnect T self).1 = DDS_RETCODE_OK ∧
    (RTI_MQTT_Client_disconnect T self).2 = self ∧
    (RTI_MQTT_Client_disconnect T self).2.state = self.state ∧
    (RTI_MQTT_Client_disconnect T self).2.subscriptions = self.subscriptions ∧
    (RTI_MQTT_Client_disconnect T self).2.publications = self.publications ∧
    (RTI_MQTT_Client_disconnect T self).2.session = self.session := by
  unfold RTI_MQTT_Client_disconnect
  simp [h]

/-- C4, at a concrete input: `sample_client` is `DISCONNECTED`, and a
disconnect leaves it so, even with the broker down. -/
theorem disconnect_noop_unless_connected_witness :
    sample_client.state ≠ RTI_MQTT_ClientStateKind.CONNECTED ∧
    (RTI_MQTT_Client_disconnect sample_transport_down sample_client).1 = DDS_RETCODE_OK ∧
    (RTI_MQTT_Client_disconnect sample_transport_down sample_client).2 = sample_client :=
  ⟨by decide,
    (disconnect_noop_unless_connected sample_transport_down sample_client (by decide)).1,
    (disconnect_noop_unless_connected sample_transport_down sample_client (by decide)).2.1⟩

/-- C2: on a client that is not `CONNECTED`, each of
`RTI_MQTT_Client_subscribe`, `RTI_MQTT_Client_unsubscribe`,
`RTI_MQTT_Client_publish` and `RTI_MQTT_Client_unpublish` returns
`DDS_RETCODE_ERROR`, whatever configuration, subscription or publication it is
given and whatever the broker would answer; the client is left as it was and
no object is returned. -/
theorem child_operations_fail_unless_connected (T : Transport) (self : RTI_MQTT_Client)
    (h : self.state ≠ RTI_MQTT_ClientStateKind.CONNECTED) :
    (∀ config : RTI_MQTT_SubscriptionConfig,
      RTI_MQTT_Client_subscribe T self config = (DDS_RETCODE_ERROR, self, none)) ∧
    (∀ sub : RTI_MQTT_Subscription,
      RTI_MQTT_Client_unsubscribe T self sub = (DDS_RETCODE_ERROR, self)) ∧
    (∀ config : RTI_MQTT_PublicationConfig,
      RTI_MQTT_Client_publish self config = (DDS_RETCODE_ERROR, self, none)) ∧
    (∀ pub : RTI_MQTT_Publication,
      RTI_MQTT_Client_unpublish self pub = (DDS_RETCODE_ERROR, self)) := by
  refine ⟨?_, ?_, ?_, ?_⟩
  · intro config
    unfold RTI_MQTT_Client_subscribe
    simp [h]
  · intro sub
    unfold RTI_MQTT_Client_unsubscribe
    simp [h]
  · intro config
    unfold RTI_MQTT_Client_publish
    simp [h]
  · intro pub
    unfold RTI_MQTT_Client_unpublish
    simp [h]

/-- C2, at a concrete input: `sample_client` is not `CONNECTED` and a subscribe
with the default configuration fails on it, though the broker would accept. -/
theorem child_operations_fail_unless_connected_witness :
    sample_client.state ≠ RTI_MQTT_ClientStateKind.CONNECTED ∧
    RTI_MQTT_Client_subscribe sample_transport sample_client
      RTI_MQTT_SubscriptionConfig_INITIALIZER = (DDS_RETCODE_ERROR, sample_client, none) ∧
    RTI_MQTT_Client_publish sample_client RTI_MQTT_PublicationConfig_INITIALIZER =
      (DDS_RETCODE_ERROR, sample_client, none) :=
  ⟨by decide,
    (child_operations_fail_unless_connected sample_transport sample_client (by decide)).1
      RTI_MQTT_SubscriptionConfig_INITIALIZER,
    (child_operations_fail_unless_connected sample_transport sample_client (by decide)).2.2.1
      RTI_MQTT_PublicationConfig_INITIALIZER⟩

/-! ### Message codec -/

/-- A member just set reads back as the value set. -/
theorem DDS_DynamicData_get_set_same (d : DDS_DynamicData) (name : String)
    (v : DDS_MemberValue) :
    DDS_DynamicData_get (DDS_DynamicData_set d name v) name = some v := by
  simp [DDS_DynamicData_get, DDS_DynamicData_set]

/-- Unsetting a member leaves the other members as they were. -/
theorem DDS_DynamicData_get_unset_other (d : DDS_DynamicData) (name other : String)
    (h : other ≠ name) :
    DDS_DynamicData_get (DDS_DynamicData_unset d name) other = DDS_DynamicData_get d other := by
  induction d with
  | nil => rfl
  | cons p rest ih =>
    unfold DDS_DynamicData_get DDS_DynamicData_unset at ih ⊢
    by_cases hp : p.1 = name
    · have hne : ¬ p.1 = other := fun e => h (e.symm.trans hp)
      simp only [List.filter_cons, hp, bne_self_eq_false, Bool.false_eq_true, if_false]
      rw [ih]
      have : (p.1 == other) = false := by simpa using hne
      simp [List.find?_cons, this]
    · have hb : (p.1 != name) = true := by simpa using hp
      simp only [List.filter_cons, hb, if_true, List.find?_cons]
      cases hq : (p.1 == other)
      · simpa using ih
      · rfl

/-- An unset member reads as unset. -/
theorem DDS_DynamicData_get_unset_same (d : DDS_DynamicData) (name : String) :
    DDS_DynamicData_get (DDS_DynamicData_unset d name) name = none := by
  induction d with
  | nil => rfl
  | cons p rest ih =>
    unfold DDS_DynamicData_get DDS_DynamicData_unset at ih ⊢
    by_cases hp : p.1 = name
    · simp only [List.filter_cons, hp, bne_self_eq_false, Bool.false_eq_true, if_false]
      exact ih
    · have hb : (p.1 != name) = true := by simpa using hp
      have hq : (p.1 == name) = false := by simpa using hp
      simp only [List.filter_cons, hb, if_true, List.find?_cons, hq]
      exact ih

/-- Setting a member leaves the other members as they were. -/
theorem DDS_DynamicData_get_set_other (d : DDS_DynamicData) (name other : String)
    (v : DDS_MemberValue) (h : other ≠ name) :
    DDS_DynamicData_get (DDS_DynamicData_set d name v) other = DDS_DynamicData_get d other := by
  have hq : (name == other) = false := by simpa using fun e : name = other => h e.symm
  have key := DDS_DynamicData_get_unset_other d name other h
  unfold DDS_DynamicData_get DDS_DynamicData_set at *
  simp only [List.find?_cons, hq]
  exact key

/-- The integer of a QoS level stands for that level. -/
theorem RTI_MQTT_QosLevel_from_to_long (q : RTI_MQTT_QosLevel) :
    RTI_MQTT_QosLevel_from_long (RTI_MQTT_QosLevel_to_long q) = some q := by
  cases q <;> rfl

/-- The members of the sample a message is converted to. -/
theorem RTI_MQTT_Message_to_dynamic_data_members (m : RTI_MQTT_Message)
    (sample : DDS_DynamicData) :
    DDS_DynamicData_get (RTI_MQTT_Message_to_dynamic_data m sample).2 "topic" =
      some (DDS_MemberValue.string m.topic) ∧
    DDS_DynamicData_get (RTI_MQTT_Message_to_dynamic_data m sample).2 "payload" =
      some (DDS_MemberValue.octets m.payload) ∧
    DDS_DynamicData_get (RTI_MQTT_Message_to_dynamic_data m sample).2 "qos" =
      some (DDS_MemberValue.long (RTI_MQTT_QosLevel_to_long m.qos)) ∧
    DDS_DynamicData_get (RTI_MQTT_Message_to_dynamic_data m sample).2 "retained" =
      some (DDS_MemberValue.boolean m.retained) ∧
    DDS_DynamicData_get_info (RTI_MQTT_Message_to_dynamic_data m sample).2 = m.info := by
  unfold RTI_MQTT_Message_to_dynamic_data DDS_DynamicData_get_info
  cases hinfo : m.info with
  | none =>
    simp only
    refine ⟨?_, ?_, ?_, ?_, ?_⟩
    · rw [DDS_DynamicData_get_unset_other _ _ _ (by decide),
        DDS_DynamicData_get_set_other _ _ _ _ (by decide),
        DDS_DynamicData_get_set_other _ _ _ _ (by decide),
        DDS_DynamicData_get_set_other _ _ _ _ (by decide),
        DDS_DynamicData_get_set_same]
    · rw [DDS_DynamicData_get_unset_other _ _ _ (by decide),
        DDS_DynamicData_get_set_other _ _ _ _ (by decide),
        DDS_DynamicData_get_set_other _ _ _ _ (by decide),
        DDS_DynamicData_get_set_same]
    · rw [DDS_DynamicData_get_unset_other _ _ _ (by decide),
        DDS_DynamicData_get_set_other _ _ _ _ (by decide),
        DDS_DynamicData_get_set_same]
    · rw [DDS_DynamicData_get_unset_other _ _ _ (by decide),
        DDS_DynamicData_get_set_same]
    · rw [DDS_DynamicData_get_unset_same]
  | some i =>
    simp only
    refine ⟨?_, ?_, ?_, ?_, ?_⟩
    · rw [DDS_DynamicData_get_set_other _ _ _ _ (by decide),
        DDS_DynamicData_get_set_other _ _ _ _ (by decide),
        DDS_DynamicData_get_set_other _ _ _ _ (by decide),
        DDS_DynamicData_get_set_other _ _ _ _ (by decide),
        DDS_DynamicData_get_set_same]
    · rw [DDS_DynamicData_get_set_other _ _ _ _ (by decide),
        DDS_DynamicData_get_set_other _ _ _ _ (by decide),
        DDS_DynamicData_get_set_other _ _ _ _ (by decide),
        DDS_DynamicData_get_set_same]
    · rw [DDS_DynamicData_get_set_other _ _ _ _ (by decide),
        DDS_DynamicData_get_set_other _ _ _ _ (by decide),
        DDS_DynamicData_get_set_same]
    · rw [DDS_DynamicData_get_set_other _ _ _ _ (by decide),
        DDS_DynamicData_get_set_same]
    · rw [DDS_DynamicData_get_set_same]

/-- Converting a message to a sample always succeeds. -/
theorem RTI_MQTT_Message_to_dynamic_data_ok (m : RTI_MQTT_Message) (sample : DDS_DynamicData) :
    (RTI_MQTT_Message_to_dynamic_data m sample).1 = DDS_RETCODE_OK := by
  unfold RTI_MQTT_Message_to_dynamic_data
  cases m.info <;> rfl

/-- C6: for every message `m`, converting `m` to a sample with
`RTI_MQTT_Message_to_dynamic_data` (whatever the sample held before) succeeds,
and converting that sample back with `RTI_MQTT_Message_from_dynamic_data`
(whatever the target message held before) succeeds and gives `m` again: same
topic, same payload bytes, same QoS and same retained flag. -/
theorem message_sample_roundtrip (m target : RTI_MQTT_Message) (sample : DDS_DynamicData) :
    (RTI_MQTT_Message_to_dynamic_data m sample).1 = DDS_RETCODE_OK ∧
    (RTI_MQTT_Message_from_dynamic_data target
      (RTI_MQTT_Message_to_dynamic_data m sample).2).1 = DDS_RETCODE_OK ∧
    (RTI_MQTT_Message_from_dynamic_data target
      (RTI_MQTT_Message_to_dynamic_data m sample).2).2.topic = m.topic ∧
    (RTI_MQTT_Message_from_dynamic_data target
      (RTI_MQTT_Message_to_dynamic_data m sample).2).2.payload = m.payload ∧
    (RTI_MQTT_Message_from_dynamic_data target
      (RTI_MQTT_Message_to_dynamic_data m sample).2).2.qos = m.qos ∧
    (RTI_MQTT_Message_from_dynamic_data target
      (RTI_MQTT_Message_to_dynamic_data m sample).2).2.retained = m.retained ∧
    (RTI_MQTT_Message_from_dynamic_data target
      (RTI_MQTT_Message_to_dynamic_data m sample).2).2 = m := by
  have hm := RTI_MQTT_Message_to_dynamic_data_members m sample
  obtain ⟨ht, hp, hq, hr, hi⟩ := hm
  have key : RTI_MQTT_Message_from_dynamic_data target
      (RTI_MQTT_Message_to_dynamic_data m sample).2 = (DDS_RETCODE_OK, m) := by
    unfold RTI_MQTT_Message_from_dynamic_data
    rw [ht, hp, hq, hr]
    simp only [RTI_MQTT_QosLevel_from_to_long, hi]
  rw [key]
  exact ⟨RTI_MQTT_Message_to_dynamic_data_ok m sample, rfl, rfl, rfl, rfl, rfl, rfl⟩

/-! ### Publications -/

/-- C8: on a publication whose configuration has `use_message_info` enabled,
`RTI_MQTT_Publication_write` fails, and publishes nothing, when the `info`
member of the message is empty. On a publication with `use_message_info`
disabled the publish settings are the topic, QoS and retained flag of the
publication's configuration: every request handed to the transport carries
them, and a message with a payload is published with exactly them. -/
theorem write_settings_from_config_or_info (T : Transport) (self : RTI_MQTT_Publication)
    (message : DDS_DynamicData) :
    (self.config.use_message_info = true → DDS_DynamicData_get_info message = none →
      RTI_MQTT_Publication_write T self message = (DDS_RETCODE_ERROR, [])) ∧
    (self.config.use_message_info = false →
      RTI_MQTT_Publication_settings self message =
        some ⟨self.config.topic, self.config.qos, self.config.retained⟩ ∧
      (∀ request ∈ (RTI_MQTT_Publication_write T self message).2,
        ∃ payload, request =
          TransportRequest.publish self.config.topic payload self.config.qos
            self.config.retained) ∧
      (∀ payload, DDS_DynamicData_get message "payload" =
          some (DDS_MemberValue.octets payload) →
        (RTI_MQTT_Publication_write T self message).2 =
          [TransportRequest.publish self.config.topic payload self.config.qos
            self.config.retained])) := by
  constructor
  · intro huse hinfo
    unfold RTI_MQTT_Publication_write RTI_MQTT_Publication_settings
      RTI_MQTT_Publication_message_settings
    simp [huse, hinfo]
  · intro huse
    have hset : RTI_MQTT_Publication_settings self message =
        some ⟨self.config.topic, self.config.qos, self.config.retained⟩ := by
      unfold RTI_MQTT_Publication_settings
      simp [huse]
    refine ⟨hset, ?_, ?_⟩
    · intro request hmem
      unfold RTI_MQTT_Publication_write at hmem
      rw [hset] at hmem
      cases hpay : DDS_DynamicData_get message "payload" with
      | none => simp [hpay] at hmem
      | some v =>
        cases v with
        | octets payload =>
          simp only [hpay, List.mem_singleton] at hmem
          exact ⟨payload, hmem⟩
        | string _ => simp [hpay] at hmem
        | long _ => simp [hpay] at hmem
        | boolean _ => simp [hpay] at hmem
        | info _ => simp [hpay] at hmem
    · intro payload hpay
      unfold RTI_MQTT_Publication_write
      rw [hset, hpay]

/-- C8, at concrete inputs: the sample of `sample_message` has no `info`, so
the write of a publication with `use_message_info` enabled fails; the write of
`sample_publication` publishes its payload with the topic, QoS and retained
flag of the publication, not with those of the message. -/
theorem write_settings_from_config_or_info_witness :
    sample_publication_message_info.config.use_message_info = true ∧
    DDS_DynamicData_get_info (RTI_MQTT_Subscription_sample sample_message) = none ∧
    RTI_MQTT_Publication_write sample_transport sample_publication_message_info
      (RTI_MQTT_Subscription_sample sample_message) = (DDS_RETCODE_ERROR, []) ∧
    sample_publication.config.use_message_info = false ∧
    (RTI_MQTT_Publication_write sample_transport sample_publication
      (RTI_MQTT_Subscription_sample sample_message)).2 =
      [TransportRequest.publish "actuators/valve" [1, 2, 3] RTI_MQTT_QosLevel.TWO true] :=
  ⟨by decide, by decide,
    (write_settings_from_config_or_info sample_transport sample_publication_message_info
      (RTI_MQTT_Subscription_sample sample_message)).1 (by decide) (by decide),
    by decide,
    ((write_settings_from_config_or_info sample_transport sample_publication
      (RTI_MQTT_Subscription_sample sample_message)).2 (by decide)).2.2 [1, 2, 3]
      (by decide)⟩

/-! ### Subscriptions and the loan protocol -/

/-- What a read of unlimited kind does. -/
theorem RTI_MQTT_Subscription_read_of_unlimited (self : RTI_MQTT_Subscription)
    (max_messages : Nat)
    (h : RTI_MQTT_Subscription_read_kind max_messages = RTI_MQTT_ReadKind.unlimited) :
    RTI_MQTT_Subscription_read self max_messages =
      if self.loan_outstanding then
        (DDS_RETCODE_ERROR, self, [])
      else
        (DDS_RETCODE_OK,
          { self with
            queue := [],
            loan_outstanding := true,
            loaned := self.queue.map RTI_MQTT_Subscription_sample },
          self.queue.map RTI_MQTT_Subscription_sample) := by
  unfold RTI_MQTT_Subscription_read
  rw [h]

/-- What a read of bounded kind does. -/
theorem RTI_MQTT_Subscription_read_of_bounded (self : RTI_MQTT_Subscription)
    (max_messages : Nat)
    (h : RTI_MQTT_Subscription_read_kind max_messages = RTI_MQTT_ReadKind.bounded) :
    RTI_MQTT_Subscription_read self max_messages =
      (DDS_RETCODE_OK,
        { self with queue := self.queue.drop max_messages },
        (self.queue.take max_messages).map RTI_MQTT_Subscription_sample) := by
  unfold RTI_MQTT_Subscription_read
  rw [h]

/-- An unlimited read succeeds exactly when no loan is outstanding. -/
theorem RTI_MQTT_Subscription_read_unlimited_ok_iff (self : RTI_MQTT_Subscription) :
    (RTI_MQTT_Subscription_read self RTI_MQTT_SUBSCRIPTION_READ_LENGTH_UNLIMITED).1 =
      DDS_RETCODE_OK ↔ self.loan_outstanding = false := by
  unfold RTI_MQTT_Subscription_read RTI_MQTT_Subscription_read_kind
  cases h : self.loan_outstanding <;> simp

/-- An unlimited read fails with `DDS_RETCODE_ERROR` while a loan is
outstanding. -/
theorem RTI_MQTT_Subscription_read_unlimited_error (self : RTI_MQTT_Subscription)
    (h : self.loan_outstanding = true) :
    (RTI_MQTT_Subscription_read self RTI_MQTT_SUBSCRIPTION_READ_LENGTH_UNLIMITED).1 =
      DDS_RETCODE_ERROR := by
  unfold RTI_MQTT_Subscription_read RTI_MQTT_Subscription_read_kind
  simp [h]

/-- A successful unlimited read sets the outstanding-loan flag. -/
theorem RTI_MQTT_Subscription_read_unlimited_sets_loan (self : RTI_MQTT_Subscription)
    (h : (RTI_MQTT_Subscription_read self RTI_MQTT_SUBSCRIPTION_READ_LENGTH_UNLIMITED).1 =
      DDS_RETCODE_OK) :
    (RTI_MQTT_Subscription_read self
      RTI_MQTT_SUBSCRIPTION_READ_LENGTH_UNLIMITED).2.1.loan_outstanding = true := by
  have hfree := (RTI_MQTT_Subscription_read_unlimited_ok_iff self).1 h
  unfold RTI_MQTT_Subscription_read RTI_MQTT_Subscription_read_kind
  simp [hfree]

/-- A step other than `RTI_MQTT_Subscription_return_loan` keeps an outstanding
loan outstanding. -/
theorem SubscriptionOp.step_keeps_loan (self : RTI_MQTT_Subscription) (op : SubscriptionOp)
    (hloan : self.loan_outstanding = true) (hop : op.is_return_loan = false) :
    (SubscriptionOp.step self op).2.loan_outstanding = true := by
  cases op with
  | set_listener l d =>
    simpa [SubscriptionOp.step, RTI_MQTT_Subscription_set_data_available_listener] using hloan
  | read n =>
    simp only [SubscriptionOp.step]
    cases hk : RTI_MQTT_Subscription_read_kind n
    · rw [RTI_MQTT_Subscription_read_of_unlimited self n hk]
      simp [hloan]
    · rw [RTI_MQTT_Subscription_read_of_bounded self n hk]
      simp [hloan]
  | return_loan ms => simp [SubscriptionOp.is_return_loan] at hop
  | deliver m =>
    simp only [SubscriptionOp.step, RTI_MQTT_Subscription_deliver]
    split <;> simpa using hloan

/-- A sequence of steps without `RTI_MQTT_Subscription_return_loan` keeps an
outstanding loan outstanding. -/
theorem SubscriptionOp.run_keeps_loan (ops : List SubscriptionOp) :
    ∀ self : RTI_MQTT_Subscription, self.loan_outstanding = true →
      (∀ op ∈ ops, op.is_return_loan = false) →
      (SubscriptionOp.run self ops).loan_outstanding = true := by
  induction ops with
  | nil => intro self hloan _; exact hloan
  | cons op rest ih =>
    intro self hloan hops
    unfold SubscriptionOp.run
    apply ih
    · exact SubscriptionOp.step_keeps_loan self op hloan (hops op (List.mem_cons_self _ _))
    · intro op2 hmem
      exact hops op2 (List.mem_cons_of_mem _ hmem)

/-- The number of loans a subscription holds out according to its flag. -/
theorem SubscriptionOp.step_loan_count (self : RTI_MQTT_Subscription) (op : SubscriptionOp) :
    (if (SubscriptionOp.step self op).2.loan_outstanding = true then (1 : Int) else 0) =
      (if self.loan_outstanding = true then (1 : Int) else 0) +
        SubscriptionOp.loan_delta (SubscriptionOp.step self op).1 op := by
  cases op with
  | set_listener l d =>
    simp [SubscriptionOp.step, SubscriptionOp.loan_delta,
      RTI_MQTT_Subscription_set_data_available_listener]
  | read n =>
    simp only [SubscriptionOp.step, SubscriptionOp.loan_delta]
    cases hk : RTI_MQTT_Subscription_read_kind n
    · simp only [RTI_MQTT_Subscription_read_of_unlimited self n hk]
      cases hl : self.loan_outstanding <;> simp [hl]
    · simp only [RTI_MQTT_Subscription_read_of_bounded self n hk]
      simp
  | return_loan ms =>
    simp only [SubscriptionOp.step, SubscriptionOp.loan_delta,
      RTI_MQTT_Subscription_return_loan]
    by_cases h : self.loan_outstanding = true ∧ ms = self.loaned
    · simp [h, h.1]
    · simp [h]
  | deliver m =>
    simp only [SubscriptionOp.step, SubscriptionOp.loan_delta, RTI_MQTT_Subscription_deliver]
    split <;> simp

/-- Counted from the return codes, the loans handed out and not returned
after any sequence of steps are as many as the flag of the subscription
says: one or none. -/
theorem SubscriptionOp.loans_outstanding_eq_flag (ops : List SubscriptionOp) :
    ∀ self : RTI_MQTT_Subscription,
      SubscriptionOp.loans_outstanding self
          (if self.loan_outstanding = true then 1 else 0) ops =
        if (SubscriptionOp.run self ops).loan_outstanding = true then 1 else 0 := by
  induction ops with
  | nil => intro self; rfl
  | cons op rest ih =>
    intro self
    unfold SubscriptionOp.loans_outstanding SubscriptionOp.run
    rw [← SubscriptionOp.step_loan_count self op]
    exact ih _

/-- C5: once `RTI_MQTT_Subscription_read` with
`RTI_MQTT_SUBSCRIPTION_READ_LENGTH_UNLIMITED` has succeeded on a subscription,
a further unlimited read fails after every sequence of steps (listener
changes, reads, deliveries) in which `RTI_MQTT_Subscription_return_loan` is
not called, and succeeds again once the loan has been returned. The loans
handed out and not yet returned, counted from the return codes of any sequence
of steps whatever, are never more than one. -/
theorem unlimited_read_loan_exclusive (self : RTI_MQTT_Subscription)
    (ops : List SubscriptionOp)
    (hread : (RTI_MQTT_Subscription_read self RTI_MQTT_SUBSCRIPTION_READ_LENGTH_UNLIMITED).1 =
      DDS_RETCODE_OK)
    (hops : ∀ op ∈ ops, op.is_return_loan = false) :
    (RTI_MQTT_Subscription_read
      (SubscriptionOp.run
        (RTI_MQTT_Subscription_read self RTI_MQTT_SUBSCRIPTION_READ_LENGTH_UNLIMITED).2.1 ops)
      RTI_MQTT_SUBSCRIPTION_READ_LENGTH_UNLIMITED).1 = DDS_RETCODE_ERROR ∧
    (RTI_MQTT_Subscription_read
      (RTI_MQTT_Subscription_return_loan
        (SubscriptionOp.run
          (RTI_MQTT_Subscription_read self
            RTI_MQTT_SUBSCRIPTION_READ_LENGTH_UNLIMITED).2.1 ops)
        (SubscriptionOp.run
          (RTI_MQTT_Subscription_read self
            RTI_MQTT_SUBSCRIPTION_READ_LENGTH_UNLIMITED).2.1 ops).loaned).2
      RTI_MQTT_SUBSCRIPTION_READ_LENGTH_UNLIMITED).1 = DDS_RETCODE_OK ∧
    (∀ any : List SubscriptionOp,
      0 ≤ SubscriptionOp.loans_outstanding self 0 any ∧
      SubscriptionOp.loans_outstanding self 0 any ≤ 1) := by
  have hheld := SubscriptionOp.run_keeps_loan ops _
    (RTI_MQTT_Subscription_read_unlimited_sets_loan self hread) hops
  refine ⟨RTI_MQTT_Subscription_read_unlimited_error _ hheld, ?_, ?_⟩
  · rw [RTI_MQTT_Subscription_read_unlimited_ok_iff]
    unfold RTI_MQTT_Subscription_return_loan
    simp [hheld]
  · intro any
    have hfree := (RTI_MQTT_Subscription_read_unlimited_ok_iff self).1 hread
    have hcount := SubscriptionOp.loans_outstanding_eq_flag any self
    simp only [hfree, Bool.false_eq_true, if_false] at hcount
    rw [hcount]
    split <;> decide

/-- C5, at a concrete input: the unlimited read of `sample_subscription`
succeeds; after a delivery, a bounded read, a further unlimited read and a
change of listener, none of them a return of the loan, an unlimited read
fails. -/
theorem unlimited_read_loan_exclusive_witness :
    (RTI_MQTT_Subscription_read sample_subscription
      RTI_MQTT_SUBSCRIPTION_READ_LENGTH_UNLIMITED).1 = DDS_RETCODE_OK ∧
    (RTI_MQTT_Subscription_read
      (SubscriptionOp.run
        (RTI_MQTT_Subscription_read sample_subscription
          RTI_MQTT_SUBSCRIPTION_READ_LENGTH_UNLIMITED).2.1
        [SubscriptionOp.deliver sample_message, SubscriptionOp.read 1,
          SubscriptionOp.read 0, SubscriptionOp.set_listener 1 2])
      RTI_MQTT_SUBSCRIPTION_READ_LENGTH_UNLIMITED).1 = DDS_RETCODE_ERROR :=
  ⟨by decide,
    (unlimited_read_loan_exclusive sample_subscription
      [SubscriptionOp.deliver sample_message, SubscriptionOp.read 1,
        SubscriptionOp.read 0, SubscriptionOp.set_listener 1 2]
      (by decide) (by decide)).1⟩

/-! ### Default values of subscriptions, publications and timeouts -/

/-- A subscription whose queue capacity is 0 never drops a message: a
delivery appends to the queue. -/
theorem RTI_MQTT_Subscription_deliver_unbounded (self : RTI_MQTT_Subscription)
    (m : RTI_MQTT_Message) (h : self.message_queue_size = 0) :
    (RTI_MQTT_Subscription_deliver self m).1.queue = self.queue ++ [m] ∧
    (RTI_MQTT_Subscription_deliver self m).1.dropped = self.dropped := by
  unfold RTI_MQTT_Subscription_deliver
  simp [h]

/-- C11: the default subscription configuration
`RTI_MQTT_SubscriptionConfig_INITIALIZER` has no topic filter, `max_qos` QoS 2,
which no QoS level exceeds, and `message_queue_size` 0; a subscription whose
queue capacity is that value has an unbounded queue, to which a delivery
appends without dropping a message. -/
theorem subscription_config_initializer_values :
    RTI_MQTT_SubscriptionConfig_INITIALIZER.topic_filters = [] ∧
    RTI_MQTT_SubscriptionConfig_INITIALIZER.max_qos = RTI_MQTT_QosLevel.TWO ∧
    RTI_MQTT_QosLevel_to_long RTI_MQTT_SubscriptionConfig_INITIALIZER.max_qos = 2 ∧
    (∀ q : RTI_MQTT_QosLevel,
      RTI_MQTT_QosLevel_to_long q ≤
        RTI_MQTT_QosLevel_to_long RTI_MQTT_SubscriptionConfig_INITIALIZER.max_qos) ∧
    RTI_MQTT_SubscriptionConfig_INITIALIZER.message_queue_size = 0 ∧
    (∀ (sub : RTI_MQTT_Subscription) (m : RTI_MQTT_Message),
      sub.message_queue_size = RTI_MQTT_SubscriptionConfig_INITIALIZER.message_queue_size →
      (RTI_MQTT_Subscription_deliver sub m).1.queue = sub.queue ++ [m] ∧
      (RTI_MQTT_Subscription_deliver sub m).1.dropped = sub.dropped) := by
  refine ⟨rfl, rfl, rfl, ?_, rfl, ?_⟩
  · intro q
    cases q <;> decide
  · intro sub m h
    exact RTI_MQTT_Subscription_deliver_unbounded sub m h

/-- C12: the default publication configuration
`RTI_MQTT_PublicationConfig_INITIALIZER` has an empty topic, QoS 0, retained
off, `use_message_info` off and a maximum wait time of 10 s 0 ns; the default
write parameters `RTI_MQTT_WriteParams_INITIALIZER` have QoS 0 and retained
off; so the two agree on QoS and retained flag. -/
theorem publication_defaults_agree :
    RTI_MQTT_PublicationConfig_INITIALIZER.topic = "" ∧
    RTI_MQTT_PublicationConfig_INITIALIZER.qos = RTI_MQTT_QosLevel.ZERO ∧
    RTI_MQTT_PublicationConfig_INITIALIZER.retained = false ∧
    RTI_MQTT_PublicationConfig_INITIALIZER.use_message_info = false ∧
    RTI_MQTT_PublicationConfig_INITIALIZER.max_wait_time = ⟨10, 0⟩ ∧
    RTI_MQTT_WriteParams_INITIALIZER.qos_level = RTI_MQTT_QosLevel.ZERO ∧
    RTI_MQTT_WriteParams_INITIALIZER.retained = false ∧
    RTI_MQTT_PublicationConfig_INITIALIZER.qos = RTI_MQTT_WriteParams_INITIALIZER.qos_level ∧
    RTI_MQTT_PublicationConfig_INITIALIZER.retained =
      RTI_MQTT_WriteParams_INITIALIZER.retained := by
  refine ⟨rfl, rfl, rfl, rfl, rfl, rfl, rfl, rfl, rfl⟩

/-- C14: with the default client configuration the longest time a connect may
block, `connect_timeout × (max_connection_retries + 1)`, is 10 s × (10 + 1),
exactly 110 seconds, and the default `max_reply_timeout`, 3 s, is strictly
shorter than the default `connect_timeout`, 10 s. -/
theorem default_connect_time_bound :
    RTI_MQTT_ClientConfig_max_connect_time RTI_MQTT_ClientConfig_INITIALIZER =
      RTI_MQTT_Time_to_nanoseconds ⟨10, 0⟩ * (10 + 1) ∧
    RTI_MQTT_ClientConfig_max_connect_time RTI_MQTT_ClientConfig_INITIALIZER =
      RTI_MQTT_Time_to_nanoseconds ⟨110, 0⟩ ∧
    RTI_MQTT_ClientConfig_INITIALIZER.max_reply_timeout = ⟨3, 0⟩ ∧
    RTI_MQTT_ClientConfig_INITIALIZER.connect_timeout = ⟨10, 0⟩ ∧
    RTI_MQTT_Time_to_nanoseconds RTI_MQTT_ClientConfig_INITIALIZER.max_reply_timeout <
      RTI_MQTT_Time_to_nanoseconds RTI_MQTT_ClientConfig_INITIALIZER.connect_timeout := by
  refine ⟨by decide, by decide, rfl, rfl, by decide⟩

/-- A connect issues at most `remaining` connection attempts. -/
theorem RTI_MQTT_Client_connect_attempts_bounded (T : Transport) (uri : String)
    (remaining attempt : Nat) :
    (RTI_MQTT_Client_connect_attempts T uri remaining attempt).2.length ≤ remaining := by
  induction remaining generalizing attempt with
  | zero => simp [RTI_MQTT_Client_connect_attempts]
  | succ n ih =>
    unfold RTI_MQTT_Client_connect_attempts
    split
    · simp
    · have := ih (attempt + 1)
      simp only [List.length_cons]
      omega

/-! ### Mutex blocks that keep the state in a variable -/

/-- What `RTI_MQTT_Mutex_release_from_state` does with the variable false:
nothing. -/
theorem RTI_MQTT_Mutex_release_from_state_false {M : Type}
    (give : M → DDS_ReturnCode_t × M) (m_ : M) :
    RTI_MQTT_Mutex_release_from_state give m_ false = Exec.fellThrough (m_, false) := by
  simp [RTI_MQTT_Mutex_release_from_state]

/-- What `RTI_MQTT_Mutex_release_from_state` does with the variable true when
the give succeeds: one give, and the variable is false. -/
theorem RTI_MQTT_Mutex_release_from_state_true_ok {M : Type}
    (give : M → DDS_ReturnCode_t × M) (m_ : M) (h : (give m_).1 = DDS_RETCODE_OK) :
    RTI_MQTT_Mutex_release_from_state give m_ true = Exec.fellThrough ((give m_).2, false) := by
  simp [RTI_MQTT_Mutex_release_from_state, RTI_MQTT_Mutex_release_w_state,
    RTI_MQTT_Mutex_release, h]

/-- What `RTI_MQTT_Mutex_release_from_state` does with the variable true when
the give fails: the process aborts. -/
theorem RTI_MQTT_Mutex_release_from_state_true_error {M : Type}
    (give : M → DDS_ReturnCode_t × M) (m_ : M) (h : (give m_).1 ≠ DDS_RETCODE_OK) :
    RTI_MQTT_Mutex_release_from_state give m_ true = Exec.aborted := by
  have h2 : DDS_RETCODE_OK ≠ (give m_).1 := fun e => h e.symm
  simp [RTI_MQTT_Mutex_release_from_state, RTI_MQTT_Mutex_release_w_state,
    RTI_MQTT_Mutex_release, h2]

/-- C15: `RTI_MQTT_Mutex_release_from_state` calls `RTI_MQTT_Mutex_give` if and
only if the state variable is true on entry. With the variable false it makes
no call, whatever a give would return, and leaves the variable false. With the
variable true it makes one call: if the give succeeds the block falls through
with one more give recorded and the variable false, and if the give fails the
process aborts. So whenever the block falls through the variable is false, and
a give was made exactly when the variable was true. -/
theorem release_from_state_gives_iff_flag {M : Type} (give : M → DDS_ReturnCode_t × M)
    (o : ObservedMutex M) :
    RTI_MQTT_Mutex_release_from_state (ObservedMutex.give give) o false =
      Exec.fellThrough (o, false) ∧
    ((give o.mutex).1 = DDS_RETCODE_OK →
      RTI_MQTT_Mutex_release_from_state (ObservedMutex.give give) o true =
        Exec.fellThrough ((ObservedMutex.give give o).2, false) ∧
      (ObservedMutex.give give o).2.gives = o.gives + 1 ∧
      (ObservedMutex.give give o).2.takes = o.takes) ∧
    ((give o.mutex).1 ≠ DDS_RETCODE_OK →
      RTI_MQTT_Mutex_release_from_state (ObservedMutex.give give) o true = Exec.aborted) ∧
    (∀ (l_ : Bool) (after : ObservedMutex M) (l_after : Bool),
      RTI_MQTT_Mutex_release_from_state (ObservedMutex.give give) o l_ =
        Exec.fellThrough (after, l_after) →
      l_after = false ∧
      (after.gives = o.gives + 1 ↔ l_ = true) ∧
      (after.gives = o.gives ↔ l_ = false)) := by
  refine ⟨RTI_MQTT_Mutex_release_from_state_false _ o, ?_, ?_, ?_⟩
  · intro h
    exact ⟨RTI_MQTT_Mutex_release_from_state_true_ok (ObservedMutex.give give) o h, rfl, rfl⟩
  · intro h
    exact RTI_MQTT_Mutex_release_from_state_true_error (ObservedMutex.give give) o h
  · intro l_ after l_after hrun
    cases l_ with
    | false =>
      rw [RTI_MQTT_Mutex_release_from_state_false] at hrun
      injection hrun with hs
      injection hs with h1 h2
      subst h1
      subst h2
      simp
    | true =>
      by_cases h : (give o.mutex).1 = DDS_RETCODE_OK
      · rw [RTI_MQTT_Mutex_release_from_state_true_ok (ObservedMutex.give give) o h] at hrun
        injection hrun with hs
        injection hs with h1 h2
        subst h1
        subst h2
        simp [ObservedMutex.give]
      · rw [RTI_MQTT_Mutex_release_from_state_true_error (ObservedMutex.give give) o h] at hrun
        cases hrun

/-- C15, at concrete inputs: on a mutex taken once, the block with the variable
true makes the one give; with the variable false it makes none, even with a
give that would fail. -/
theorem release_from_state_gives_iff_flag_witness :
    RTI_MQTT_Mutex_release_from_state (ObservedMutex.give sample_give) ⟨(), 1, 0, 0⟩ true =
      Exec.fellThrough (⟨(), 1, 1, 0⟩, false) ∧
    RTI_MQTT_Mutex_release_from_state (ObservedMutex.give sample_give_failing) ⟨(), 1, 1, 0⟩
      false = Exec.fellThrough (⟨(), 1, 1, 0⟩, false) ∧
    RTI_MQTT_Mutex_release_from_state (ObservedMutex.give sample_give_failing) ⟨(), 1, 0, 0⟩
      true = Exec.aborted :=
  ⟨((release_from_state_gives_iff_flag sample_give ⟨(), 1, 0, 0⟩).2.1 rfl).1,
    (release_from_state_gives_iff_flag sample_give_failing ⟨(), 1, 1, 0⟩).1,
    (release_from_state_gives_iff_flag sample_give_failing ⟨(), 1, 0, 0⟩).2.2.1 (by decide)⟩

/-- C17: `RTI_MQTT_Mutex_release_from_state` is idempotent. For every value of
the state variable, running the block twice in a row ends as running it once
does; and when the give succeeds, or the variable is false, one run falls
through with the variable false and as many gives recorded as the variable
asked for (one if it was true, none if false), and the second run adds no
give. -/
theorem release_from_state_idempotent {M : Type} (give : M → DDS_ReturnCode_t × M)
    (o : ObservedMutex M) (l_ : Bool) :
    (RTI_MQTT_Mutex_release_from_state (ObservedMutex.give give) o l_).andThen
        (fun s => RTI_MQTT_Mutex_release_from_state (ObservedMutex.give give) s.1 s.2) =
      RTI_MQTT_Mutex_release_from_state (ObservedMutex.give give) o l_ ∧
    ((give o.mutex).1 = DDS_RETCODE_OK ∨ l_ = false →
      ∃ after : ObservedMutex M,
        RTI_MQTT_Mutex_release_from_state (ObservedMutex.give give) o l_ =
          Exec.fellThrough (after, false) ∧
        RTI_MQTT_Mutex_release_from_state (ObservedMutex.give give) after false =
          Exec.fellThrough (after, false) ∧
        after.gives = o.gives + (if l_ = true then 1 else 0)) := by
  constructor
  · cases l_ with
    | false =>
      rw [RTI_MQTT_Mutex_release_from_state_false]
      simp [Exec.andThen, RTI_MQTT_Mutex_release_from_state_false]
    | true =>
      by_cases h : (give o.mutex).1 = DDS_RETCODE_OK
      · rw [RTI_MQTT_Mutex_release_from_state_true_ok (ObservedMutex.give give) o h]
        simp [Exec.andThen, RTI_MQTT_Mutex_release_from_state_false]
      · rw [RTI_MQTT_Mutex_release_from_state_true_error (ObservedMutex.give give) o h]
        rfl
  · intro h
    cases l_ with
    | false =>
      exact ⟨o, RTI_MQTT_Mutex_release_from_state_false _ o,
        RTI_MQTT_Mutex_release_from_state_false _ o, by simp⟩
    | true =>
      have hok : (give o.mutex).1 = DDS_RETCODE_OK := by
        rcases h with h | h
        · exact h
        · cases h
      exact ⟨(ObservedMutex.give give o).2,
        RTI_MQTT_Mutex_release_from_state_true_ok (ObservedMutex.give give) o hok,
        RTI_MQTT_Mutex_release_from_state_false _ _, by simp [ObservedMutex.give]⟩

/-- C17, at concrete inputs: on a mutex taken once with the variable true, the
cleanup run twice records one give, as the cleanup run once does. -/
theorem release_from_state_idempotent_witness :
    (RTI_MQTT_Mutex_release_from_state (ObservedMutex.give sample_give) ⟨(), 1, 0, 0⟩
        true).andThen
        (fun s => RTI_MQTT_Mutex_release_from_state (ObservedMutex.give sample_give) s.1 s.2) =
      Exec.fellThrough (⟨(), 1, 1, 0⟩, false) ∧
    RTI_MQTT_Mutex_release_from_state (ObservedMutex.give sample_give) ⟨(), 1, 0, 0⟩ true =
      Exec.fellThrough (⟨(), 1, 1, 0⟩, false) :=
  ⟨(release_from_state_idempotent sample_give ⟨(), 1, 0, 0⟩ true).1.trans (by decide),
    by decide⟩

/-- When every take and give succeeds, a block used when it may be falls
through, and keeps the record of the calls in step with the state variable:
one more take than gives when the variable is true, as many when it is false,
and no give on a mutex that is not held. -/
theorem MutexOp.step_keeps_count {M : Type} (take give : M → DDS_ReturnCode_t × M)
    (htake : ∀ m, (take m).1 = DDS_RETCODE_OK) (hgive : ∀ m, (give m).1 = DDS_RETCODE_OK)
    (s : ObservedMutex M × Bool) (op : MutexOp)
    (hcount : s.1.takes = s.1.gives + (if s.2 = true then 1 else 0))
    (hheld : s.1.gives_not_held = 0) (hop : op.enabled s.2 = true) :
    ∃ next, MutexOp.step take give s op = Exec.fellThrough next ∧
      next.1.takes = next.1.gives + (if next.2 = true then 1 else 0) ∧
      next.1.gives_not_held = 0 := by
  obtain ⟨o, l⟩ := s
  simp only at hcount hheld hop
  cases op with
  | assert_w_state =>
    have hl : l = false := by simpa [MutexOp.enabled] using hop
    subst hl
    refine ⟨((ObservedMutex.take take o).2, true), ?_, ?_, ?_⟩
    · simp [MutexOp.step, RTI_MQTT_Mutex_assert_w_state, RTI_MQTT_Mutex_assert,
        ObservedMutex.take, htake]
    · simp only [ObservedMutex.take, if_true]
      simp at hcount
      omega
    · simpa [ObservedMutex.take] using hheld
  | release_w_state =>
    have hl : l = true := by simpa [MutexOp.enabled] using hop
    subst hl
    refine ⟨((ObservedMutex.give give o).2, false), ?_, ?_, ?_⟩
    · simp [MutexOp.step, RTI_MQTT_Mutex_release_w_state, RTI_MQTT_Mutex_release,
        ObservedMutex.give, hgive]
    · simp at hcount
      simp [ObservedMutex.give, hcount]
    · simp at hcount
      have hnot : ¬ o.takes ≤ o.gives := by omega
      simp [ObservedMutex.give, hnot, hheld]
  | release_from_state =>
    cases l with
    | false =>
      refine ⟨(o, false), ?_, hcount, hheld⟩
      simp [MutexOp.step, RTI_MQTT_Mutex_release_from_state]
    | true =>
      refine ⟨((ObservedMutex.give give o).2, false), ?_, ?_, ?_⟩
      · simp only [MutexOp.step]
        exact RTI_MQTT_Mutex_release_from_state_true_ok (ObservedMutex.give give) o
          (hgive o.mutex)
      · simp at hcount
        simp [ObservedMutex.give, hcount]
      · simp at hcount
        have hnot : ¬ o.takes ≤ o.gives := by omega
        simp [ObservedMutex.give, hnot, hheld]

/-- When every take and give succeeds, a sequence of blocks keeps the record
of the calls in step with the state variable. -/
theorem MutexOp.run_keeps_count {M : Type} (take give : M → DDS_ReturnCode_t × M)
    (htake : ∀ m, (take m).1 = DDS_RETCODE_OK) (hgive : ∀ m, (give m).1 = DDS_RETCODE_OK)
    (ops : List MutexOp) :
    ∀ s final : ObservedMutex M × Bool,
      s.1.takes = s.1.gives + (if s.2 = true then 1 else 0) → s.1.gives_not_held = 0 →
      MutexOp.run take give s ops = some final →
      final.1.takes = final.1.gives + (if final.2 = true then 1 else 0) ∧
        final.1.gives_not_held = 0 := by
  induction ops with
  | nil =>
    intro s final hcount hheld hrun
    simp only [MutexOp.run, Option.some.injEq] at hrun
    subst hrun
    exact ⟨hcount, hheld⟩
  | cons op rest ih =>
    intro s final hcount hheld hrun
    by_cases hop : op.enabled s.2 = true
    · obtain ⟨next, hstep, hc, hh⟩ :=
        MutexOp.step_keeps_count take give htake hgive s op hcount hheld hop
      simp only [MutexOp.run, hop, if_true, hstep] at hrun
      exact ih next final hc hh hrun
    · simp [MutexOp.run, hop] at hrun

/-- A sequence of blocks that runs to its end runs to the end of each of its
initial parts. -/
theorem MutexOp.run_append {M : Type} (take give : M → DDS_ReturnCode_t × M)
    (pre suf : List MutexOp) :
    ∀ s : ObservedMutex M × Bool,
      MutexOp.run take give s (pre ++ suf) =
        (MutexOp.run take give s pre).bind (fun mid => MutexOp.run take give mid suf) := by
  induction pre with
  | nil => intro s; rfl
  | cons op rest ih =>
    intro s
    simp only [List.cons_append, MutexOp.run]
    split
    · split
      · rfl
      · exact ih _
    · rfl

/-- C16: start with the state variable false and a mutex on which no call has
been made, and let every take and give return `DDS_RETCODE_OK`. For every
sequence of `RTI_MQTT_Mutex_assert_w_state` (used only with the variable
false), `RTI_MQTT_Mutex_release_w_state` (used only with the variable true) and
`RTI_MQTT_Mutex_release_from_state` (used at any time), after each step the
number of takes minus the number of gives is 1 when the variable is true and 0
when it is false, and no give has been made on a mutex that was not held. No
step aborts: the sequence can be continued by any block that may be used. -/
theorem mutex_state_flag_tracks_ownership {M : Type} (take give : M → DDS_ReturnCode_t × M)
    (htake : ∀ m, (take m).1 = DDS_RETCODE_OK) (hgive : ∀ m, (give m).1 = DDS_RETCODE_OK)
    (m : M) (ops : List MutexOp) (final : ObservedMutex M × Bool)
    (hrun : MutexOp.run take give (ObservedMutex.fresh m, false) ops = some final) :
    (∀ n : Nat, ∃ mid : ObservedMutex M × Bool,
      MutexOp.run take give (ObservedMutex.fresh m, false) (ops.take n) = some mid ∧
      ((mid.1.takes : Int) - mid.1.gives = if mid.2 = true then 1 else 0) ∧
      mid.1.gives_not_held = 0) ∧
    ((final.1.takes : Int) - final.1.gives = if final.2 = true then 1 else 0) ∧
    final.1.gives_not_held = 0 ∧
    (∀ op : MutexOp, op.enabled final.2 = true →
      ∃ next, MutexOp.run take give (ObservedMutex.fresh m, false) (ops ++ [op]) =
        some next) := by
  have hstart : (ObservedMutex.fresh m).takes =
      (ObservedMutex.fresh m).gives + (if false = true then 1 else 0) := by
    simp [ObservedMutex.fresh]
  have hstart2 : (ObservedMutex.fresh m).gives_not_held = 0 := rfl
  have hfinal := MutexOp.run_keeps_count take give htake hgive ops
    (ObservedMutex.fresh m, false) final hstart hstart2 hrun
  refine ⟨?_, ?_, hfinal.2, ?_⟩
  · intro n
    have happ := MutexOp.run_append take give (ops.take n) (ops.drop n)
      (ObservedMutex.fresh m, false)
    rw [List.take_append_drop, hrun] at happ
    cases hmid : MutexOp.run take give (ObservedMutex.fresh m, false) (ops.take n) with
    | none => rw [hmid] at happ; cases happ
    | some mid =>
      have hm := MutexOp.run_keeps_count take give htake hgive (ops.take n)
        (ObservedMutex.fresh m, false) mid hstart hstart2 hmid
      refine ⟨mid, rfl, ?_, hm.2⟩
      have h1 := hm.1
      split <;> rename_i hflag <;> simp only [hflag] at h1 <;> simp at h1 <;> omega
  · have h1 := hfinal.1
    split <;> rename_i hflag <;> simp only [hflag] at h1 <;> simp at h1 <;> omega
  · intro op hop
    obtain ⟨next, hstep, _, _⟩ :=
      MutexOp.step_keeps_count take give htake hgive final op hfinal.1 hfinal.2 hop
    refine ⟨next, ?_⟩
    rw [MutexOp.run_append, hrun]
    simp [MutexOp.run, hop, hstep]

/-- C16, at concrete inputs: take, cleanup, cleanup again, take, release. The
sequence runs to its end with two takes, two gives, the variable false and no
give on a mutex not held. -/
theorem mutex_state_flag_tracks_ownership_witness :
    MutexOp.run sample_take sample_give (ObservedMutex.fresh (), false)
      [MutexOp.assert_w_state, MutexOp.release_from_state, MutexOp.release_from_state,
        MutexOp.assert_w_state, MutexOp.release_w_state] = some (⟨(), 2, 2, 0⟩, false) ∧
    (((2 : Nat) : Int) - ((2 : Nat) : Int) = if false = true then 1 else 0) ∧
    MutexOp.run sample_take sample_give (ObservedMutex.fresh (), false)
      ([MutexOp.assert_w_state, MutexOp.release_from_state].take 1) =
      some (⟨(), 1, 0, 0⟩, true) :=
  ⟨by decide,
    (mutex_state_flag_tracks_ownership sample_take sample_give (fun _ => rfl) (fun _ => rfl) ()
      [MutexOp.assert_w_state, MutexOp.release_from_state, MutexOp.release_from_state,
        MutexOp.assert_w_state, MutexOp.release_w_state] (⟨(), 2, 2, 0⟩, false)
      (by decide)).2.1,
    by decide⟩

/-! ### Bounded queue of a subscription -/

/-- A delivery leaves the capacity of the queue as it was. -/
theorem RTI_MQTT_Subscription_deliver_capacity (self : RTI_MQTT_Subscription)
    (m : RTI_MQTT_Message) :
    (RTI_MQTT_Subscription_deliver self m).1.message_queue_size = self.message_queue_size := by
  unfold RTI_MQTT_Subscription_deliver
  split <;> rfl

/-- The queue after the delivery of a sequence of messages to a bounded queue
that was within its capacity: the latest messages of the old queue followed by
the new ones, as many as the capacity allows. -/
theorem RTI_MQTT_Subscription_deliver_all_queue (messages : List RTI_MQTT_Message) :
    ∀ self : RTI_MQTT_Subscription, 1 ≤ self.message_queue_size →
      self.queue.length ≤ self.message_queue_size →
      (RTI_MQTT_Subscription_deliver_all self messages).queue =
        (self.queue ++ messages).drop
          ((self.queue ++ messages).length - self.message_queue_size) := by
  induction messages with
  | nil =>
    intro self _ hlen
    have hzero : (self.queue ++ []).length - self.message_queue_size = 0 := by
      simp only [List.append_nil]
      omega
    rw [hzero]
    simp [RTI_MQTT_Subscription_deliver_all]
  | cons m rest ih =>
    intro self hcap hlen
    have hunfold : RTI_MQTT_Subscription_deliver_all self (m :: rest) =
        RTI_MQTT_Subscription_deliver_all (RTI_MQTT_Subscription_deliver self m).1 rest := rfl
    have hsize := RTI_MQTT_Subscription_deliver_capacity self m
    rw [hunfold]
    by_cases hfull : self.message_queue_size ≤ self.queue.length
    · have hqueue : (RTI_MQTT_Subscription_deliver self m).1.queue = self.queue.tail ++ [m] := by
        unfold RTI_MQTT_Subscription_deliver
        have hne : self.message_queue_size ≠ 0 := by omega
        simp [hne, hfull]
      cases hq : self.queue with
      | nil =>
        rw [hq] at hfull
        simp at hfull
        omega
      | cons x t =>
        rw [hq] at hqueue hlen hfull
        simp only [List.tail_cons] at hqueue
        simp only [List.length_cons] at hlen hfull
        have hlen1 : (RTI_MQTT_Subscription_deliver self m).1.queue.length ≤
            (RTI_MQTT_Subscription_deliver self m).1.message_queue_size := by
          rw [hqueue, hsize]
          simp only [List.length_append, List.length_singleton]
          omega
        rw [ih _ (by rw [hsize]; exact hcap) hlen1, hqueue, hsize]
        have e1 : t ++ [m] ++ rest = t ++ m :: rest := by simp
        have e2 : (x :: t ++ m :: rest).length - self.message_queue_size =
            ((t ++ m :: rest).length - self.message_queue_size) + 1 := by
          simp only [List.cons_append, List.length_cons, List.length_append]
          omega
        rw [e1, e2]
        rfl
    · have hqueue : (RTI_MQTT_Subscription_deliver self m).1.queue = self.queue ++ [m] := by
        unfold RTI_MQTT_Subscription_deliver
        simp [hfull]
      have hlen1 : (RTI_MQTT_Subscription_deliver self m).1.queue.length ≤
          (RTI_MQTT_Subscription_deliver self m).1.message_queue_size := by
        rw [hqueue, hsize]
        simp only [List.length_append, List.length_singleton]
        omega
      rw [ih _ (by rw [hsize]; exact hcap) hlen1, hqueue, hsize]
      simp

/-- C13: for every subscription with a bounded queue of capacity `n ≥ 1`,
empty before the first delivery, and every sequence of `k` delivered messages,
the queue afterwards holds the last `min n k` of them in their order of
arrival, the older ones having been dropped. -/
theorem bounded_queue_keeps_latest (self : RTI_MQTT_Subscription)
    (messages : List RTI_MQTT_Message) (hcap : 1 ≤ self.message_queue_size)
    (hempty : self.queue = []) :
    (RTI_MQTT_Subscription_deliver_all self messages).queue =
      messages.drop (messages.length - min self.message_queue_size messages.length) ∧
    (RTI_MQTT_Subscription_deliver_all self messages).queue.length =
      min self.message_queue_size messages.length := by
  have hlen : self.queue.length ≤ self.message_queue_size := by
    rw [hempty]
    simp
  have hq := RTI_MQTT_Subscription_deliver_all_queue messages self hcap hlen
  rw [hempty] at hq
  simp only [List.nil_append] at hq
  have hsame : messages.length - min self.message_queue_size messages.length =
      messages.length - self.message_queue_size := by omega
  rw [hsame, hq]
  refine ⟨rfl, ?_⟩
  rw [List.length_drop]
  omega

/-- C13, the scenario: a queue of capacity 2 that receives A, B, C in this
order retains B, C. -/
theorem bounded_queue_keeps_latest_witness :
    1 ≤ sample_subscription_bounded.message_queue_size ∧
    sample_subscription_bounded.queue = [] ∧
    (RTI_MQTT_Subscription_deliver_all sample_subscription_bounded
      [sample_message_A, sample_message_B, sample_message_C]).queue =
      [sample_message_B, sample_message_C] :=
  ⟨by decide, rfl,
    (bounded_queue_keeps_latest sample_subscription_bounded
      [sample_message_A, sample_message_B, sample_message_C] (by decide) rfl).1⟩

end RtiMqtt
